import Mathlib

/-!
Verification of the tool-calling orchestration core of the BestBuy UCP server.

Shallow embedding of:
* `app/services/rate_limiter.py`  (`RateLimiter.acquire`)
* `app/services/bestbuy_client.py` (`_filter_and_rank_results`,
  `get_complementary_products`, `get_store_availability`, error handling of the
  gateway operations)
* `app/services/chat_service.py` (`process_message`: function-calling loop,
  product deduplication, SKU-focus narrowing)

Time is modelled by `ℚ` (Python `time.time()` floats); `asyncio.sleep` is
modelled as advancing the clock by exactly the requested amount.  Python
strings are modelled by `String` over their character lists; `str.lower` by
`Char.toLower` (the texts involved are ASCII).
-/

/-! ## String helpers (Python string operations) -/

/-- Python `str.lower()` (ASCII). -/
def lowerStr (s : String) : String := String.mk (s.data.map Char.toLower)

/-- `needle` occurs as a contiguous sublist of the second argument
(Python `needle in hay` for strings). -/
def hasSubList (needle : List Char) : List Char → Bool
  | [] => needle.isEmpty
  | c :: cs => needle.isPrefixOf (c :: cs) || hasSubList needle cs

/-- Python `needle in hay` (substring containment). -/
def strContains (hay needle : String) : Bool := hasSubList needle.data hay.data

/-- Python `hay.startswith(needle)`. -/
def strStartsWith (hay needle : String) : Bool := needle.data.isPrefixOf hay.data

/-- Python `hay.endswith(needle)`. -/
def strEndsWith (hay needle : String) : Bool := needle.data.reverse.isPrefixOf hay.data.reverse

/-- A regex word character (`\w`, ASCII fragment: the texts involved are ASCII). -/
def isWordChar (c : Char) : Bool := c.isAlphanum || c = '_'

/-- Scan for `needle` at a word boundary on both sides
(`re.search(r'\b' + needle + r'\b', hay)`), assuming `needle` begins and ends
with word characters (true of every keyword this is applied to).
The `Bool` argument records whether the previous character was a word
character. -/
def wbSearchAux (needle : List Char) : Bool → List Char → Bool
  | _, [] => false
  | prevWord, c :: cs =>
    (!prevWord && needle.isPrefixOf (c :: cs) &&
      (match (c :: cs).drop needle.length with
       | [] => true
       | d :: _ => !isWordChar d)) ||
    wbSearchAux needle (isWordChar c) cs

/-- `re.search(r'\b' + re.escape(kw) + r'\b', hay)` for a keyword made of word
characters (plus internal hyphens, which do not affect the outer boundaries). -/
def wordBoundarySearch (hay needle : String) : Bool :=
  wbSearchAux needle.data false hay.data

/-- Helper scan for `splitWs`; `acc` holds the current word reversed. -/
def splitWsAux : List Char → List Char → List String
  | [], acc => if acc = [] then [] else [String.mk acc.reverse]
  | c :: cs, acc =>
    if c.isWhitespace then
      if acc = [] then splitWsAux cs [] else String.mk acc.reverse :: splitWsAux cs []
    else splitWsAux cs (c :: acc)

/-- Python `s.split()` (split on whitespace runs, dropping empty pieces). -/
def splitWs (s : String) : List String := splitWsAux s.data []

/-- First-occurrence deduplication keyed by `key` (Python `dict.fromkeys` /
"seen"-set loops). -/
def dedupByKey {α κ : Type} [DecidableEq κ] (key : α → κ) : List κ → List α → List α
  | _, [] => []
  | seen, x :: xs =>
    if key x ∈ seen then dedupByKey key seen xs
    else x :: dedupByKey key (key x :: seen) xs

/-! ## Rate limiter (`app/services/rate_limiter.py`)

`RateLimiter.acquire` runs under a lock, so a run of the system is a sequence
of `acquire` calls; the `i+1`-st call enters the critical section no earlier
than the instant the `i`-th recorded its timestamp (the clock is monotone).
Runs are therefore modelled by a list of non-negative gaps: each call enters
at `previous record time + gap`. -/

namespace RateLimiter

/-- The per-minute window (`WINDOW = 60.0` seconds). -/
def WINDOW : ℚ := 60

/-- The safety margin added to the per-minute wait (`+ 0.05`). -/
def SAFETY : ℚ := 0.05

/-- One day in seconds (`86400`). -/
def DAY : ℚ := 86400

/-- Mutable state of a `RateLimiter`:
`recent_requests`, `daily_requests` (both oldest-first) and
`daily_reset_time`. -/
structure State where
  recent : List ℚ
  daily : List ℚ
  dailyReset : ℚ
deriving Repr, DecidableEq

/-- `__init__`: empty queues, `daily_reset_time = time.time() + 86400`. -/
def init (t0 : ℚ) : State := ⟨[], [], t0 + DAY⟩

/-- The daily-limit section of `acquire`, entered at time `t`: wholesale reset
when `t ≥ daily_reset_time`; if the daily queue is still at capacity, sleep
until the reset instant, then clear and re-arm.  The source's intermediate
pair (the queue and reset after the first `if`) is expanded into the two
outer branches here; in the reset branch the capacity test reads the cleared
queue, which is why its length is the empty list's.  Returns the current time
after any sleep together with the updated daily queue and reset instant. -/
def dailyStep (D : ℕ) (daily0 : List ℚ) (reset0 : ℚ) (t : ℚ) : ℚ × List ℚ × ℚ :=
  if t ≥ reset0 then
    if ([] : List ℚ).length ≥ D then (t + DAY, [], t + DAY + DAY) else (t, [], t + DAY)
  else
    if daily0.length ≥ D then (reset0, [], reset0 + DAY) else (t, daily0, reset0)

/-- The per-minute section of `acquire`, entered at time `t`: evict entries
with `t - ts ≥ WINDOW`; if still at capacity, sleep until the oldest entry
expires plus the safety margin, then re-evict.  Returns the record time and
the evicted queue (before the new timestamp is appended). -/
def minuteStep (N : ℕ) (recent0 : List ℚ) (t : ℚ) : ℚ × List ℚ :=
  let evicted := recent0.dropWhile (fun ts => decide (ts + WINDOW ≤ t))
  if evicted.length ≥ N then
    let t' := evicted.headD 0 + WINDOW + SAFETY
    (t', evicted.dropWhile (fun ts => decide (ts + WINDOW ≤ t')))
  else
    (t, evicted)

/-- `RateLimiter.acquire`, entered at time `t` (sleeps modelled as exact).
Returns the new state and the recorded timestamp. -/
def acquire (N D : ℕ) (s : State) (t : ℚ) : State × ℚ :=
  let d := dailyStep D s.daily s.dailyReset t
  let m := minuteStep N s.recent d.1
  (⟨m.2 ++ [m.1], d.2.1 ++ [m.1], d.2.2⟩, m.1)

/-- A sequence of `acquire` calls: the `i`-th call enters at
`previous record time + gaps[i]`.  Returns the final state and the list of
recorded timestamps. -/
def runGaps (N D : ℕ) : State → ℚ → List ℚ → State × List ℚ
  | s, _, [] => (s, [])
  | s, tprev, g :: gs =>
    let r := acquire N D s (tprev + g)
    let rest := runGaps N D r.1 r.2 gs
    (rest.1, r.2 :: rest.2)

end RateLimiter

/-! ## Best Buy client (`app/services/bestbuy_client.py`) -/

namespace BestBuy

/-- The fields of `Product` (schemas/product.py) consulted by
`_filter_and_rank_results` and the complementary-product flow.  `name` is kept
total: the Python filter calls `product.name.lower()` unconditionally, so a
`None` name is outside its domain. -/
structure Product where
  sku : Option Int
  name : String
  shortDescription : Option String
  modelNumber : Option String
  onlineAvailability : Option Bool
deriving Repr, DecidableEq

/-- `ProductSearchResponse` (the fields `_filter_and_rank_results` builds). -/
structure SearchResponse where
  total : ℤ
  products : List Product
  from_ : ℤ
  to_ : ℤ
  currentPage : ℤ
  totalPages : ℤ
deriving Repr, DecidableEq

/-- `product_type_keywords` (insertion order preserved: detection picks the
first entry whose keyword list matches). -/
def productTypeKeywords : List (String × List String) :=
  [ ("iphone", ["iphone"]),
    ("ipad", ["ipad"]),
    ("macbook", ["macbook"]),
    ("imac", ["imac"]),
    ("mac mini", ["mac mini"]),
    ("mac pro", ["mac pro"]),
    ("mac studio", ["mac studio"]),
    ("airpods", ["airpods", "air pods"]),
    ("watch", ["watch", "apple watch"]),
    ("laptop", ["laptop", "notebook"]),
    ("phone", ["phone", "smartphone"]),
    ("tablet", ["tablet"]),
    ("headphones", ["headphones", "earbuds", "earphones"]),
    ("tv", ["tv ", "television", "oled tv", "qled tv", "smart tv", "flat screen tv", "4k tv", "mini led tv"]),
    ("monitor", ["monitor", "computer monitor", "gaming monitor", "curved monitor"]),
    ("camera", ["camera", "digital camera", "dslr", "mirrorless", "point-and-shoot", "point and shoot"]),
    ("drone", ["drone", "quadcopter", "unmanned aerial"]),
    ("speaker", ["speaker", "bluetooth speaker", "portable speaker", "bookshelf speaker", "home theater speaker"]),
    ("soundbar", ["soundbar", "sound bar"]),
    ("printer", ["printer", "inkjet printer", "laser printer", "all-in-one printer"]),
    ("smartwatch", ["smartwatch", "smart watch", "apple watch", "galaxy watch", "garmin watch"]),
    ("playstation", ["playstation 5", "playstation 4", "ps5", "ps4"]),
    ("xbox", ["xbox series x", "xbox series s", "xbox one x", "xbox one s", "xbox one", "xbox"]),
    ("nintendo_switch", ["nintendo switch 2", "nintendo switch oled", "nintendo switch lite", "nintendo switch"]),
    ("gaming", ["game console", "gaming console", "game controller"]),
    ("vacuum", ["vacuum", "vacuum cleaner", "robot vacuum", "canister vacuum", "stick vacuum", "cordless vacuum"]),
    ("air_purifier", ["air purifier", "air cleaner", "hepa purifier"]),
    ("air_conditioner", ["air conditioner", "window air conditioner", "portable air conditioner",
                         "window ac", "portable ac", "mini split", "ac unit", "air conditioning unit"]),
    ("air_fryer", ["air fryer", "air fry", "airfryer"]),
    ("grill", ["grill", "bbq", "gas grill", "charcoal grill", "pellet grill", "kamado grill", "outdoor grill"]),
    ("refrigerator", ["refrigerator", "french door", "side-by-side", "bottom freezer", "top freezer", "counter-depth", "counter depth"]),
    ("fridge", ["refrigerator", "french door", "side-by-side"]),
    ("dishwasher", ["dishwasher"]),
    ("washer", ["washer", "washing machine", "front load", "top load", "front-load", "top-load"]),
    ("dryer", ["dryer", "clothes dryer", "gas dryer", "electric dryer"]),
    ("microwave", ["microwave", "over-the-range", "countertop microwave", "built-in microwave"]),
    ("range", ["range", "electric range", "gas range", "induction range", "freestanding range", "slide-in range"]),
    ("oven", ["oven", "wall oven", "double oven", "single oven"]),
    ("cooktop", ["cooktop", "induction cooktop", "gas cooktop", "electric cooktop"]),
    ("freezer", ["freezer", "chest freezer", "upright freezer"]) ]

/-- `appliance_accessory_filter`. -/
def applianceAccessoryFilter : List (String × List String) :=
  [ ("refrigerator", ["water filter", "replacement filter", "filter for select", "door panel", "refrigerator panel",
                      "crisper drawer", "ice bin", "drip tray", "shelf for", "rack for"]),
    ("fridge", ["water filter", "replacement filter", "filter for select", "door panel", "refrigerator panel"]),
    ("dishwasher", ["dishwasher rack", "dishwasher basket", "dishwasher cleaner", "dishwasher detergent"]),
    ("washer", ["washer pedestal", "laundry bag", "drum cleaner", "laundry detergent"]),
    ("dryer", ["dryer pedestal", "dryer sheet", "vent kit", "drum cleaner"]),
    ("microwave", ["turntable plate", "microwave plate", "microwave filter", "grease filter"]),
    ("range", ["drip pan", "range hood", "burner grate", "burner knob", "range knob"]),
    ("oven", ["oven rack", "oven thermometer", "oven mitt", "broiler pan"]),
    ("cooktop", ["cooktop cleaner", "induction cookware"]),
    ("freezer", ["freezer basket", "freezer shelf"]),
    ("vacuum", ["vacuum bag", "replacement filter for", "brush roll for", "dustbin for", "filter pack for", "vacuum belt"]),
    ("grill", ["grill cover", "grill brush", "grill mat", "grill cleaner", "grill light", "drip tray for"]) ]

/-- `console_hardware_types`. -/
def consoleHardwareTypes : List String := ["playstation", "xbox", "nintendo_switch"]

/-- `game_title_name_prefixes`. -/
def gameTitleNamePrefixes : List String := ["playstation pc "]

/-- `game_title_name_endings`. -/
def gameTitleNameEndings : List String := ["[digital]"]

/-- `irrelevant_keywords`. -/
def irrelevantKeywords : List String :=
  [ "gift card", "giftcard", "e-gift", "egift", "gift cards",
    "warranty", "protection plan", "geek squad",
    "membership", "subscription",
    "installation service", "setup service", "tech support",
    "applecare", "apple care" ]

/-- `device_keywords` (the accessory-filter list inside the scoring loop). -/
def deviceKeywords : List String :=
  [ "iphone", "ipad", "macbook", "laptop", "phone", "tablet", "watch", "airpods",
    "tv", "television", "monitor", "camera", "drone", "speaker", "soundbar", "sound bar",
    "printer", "smartwatch", "vacuum", "grill",
    "refrigerator", "fridge", "dishwasher", "washer", "dryer", "microwave", "range", "oven", "cooktop", "freezer",
    "playstation", "ps5", "ps4", "xbox", "nintendo switch" ]

/-- `accessory_keywords`. -/
def accessoryKeywords : List String :=
  ["charger", "cable", "adapter", "stand", "mount", "screen protector"]

/-- The colour names recognised as specs. -/
def specColors : List String :=
  ["black", "white", "silver", "gold", "blue", "red", "green", "purple", "pink", "yellow"]

/-- The query words marking an explicit game search. -/
def gameSearchWords : List String := ["game", "games", "dlc", "expansion", "edition of"]

/-- `conflicts` (mutually exclusive product types). -/
def conflictsTable : List (String × List String) :=
  [ ("iphone", ["ipad", "ipod", "macbook", "imac", "mac mini", "mac pro", "apple watch"]),
    ("ipad", ["iphone", "macbook", "imac", "mac mini", "mac pro"]),
    ("macbook", ["iphone", "ipad", "imac", "mac mini", "mac pro", "mac studio"]),
    ("mac mini", ["iphone", "ipad", "macbook", "imac", "mac pro", "mac studio", "laptop"]),
    ("imac", ["iphone", "ipad", "macbook", "mac mini", "mac pro", "mac studio", "laptop"]),
    ("mac pro", ["iphone", "ipad", "macbook", "mac mini", "imac", "mac studio", "laptop"]),
    ("mac studio", ["iphone", "ipad", "macbook", "mac mini", "imac", "mac pro", "laptop"]),
    ("laptop", ["phone", "tablet", "watch"]),
    ("phone", ["tablet", "laptop", "watch", "ipad"]),
    ("tablet", ["phone", "laptop", "watch", "iphone"]),
    ("tv", ["monitor", "projector", "computer display"]),
    ("monitor", ["television", "projector"]),
    ("camera", ["drone", "webcam", "security camera"]),
    ("drone", ["security camera", "webcam"]),
    ("vacuum", ["air purifier", "humidifier"]),
    ("playstation", ["xbox", "nintendo switch"]),
    ("xbox", ["playstation", "nintendo switch"]),
    ("nintendo_switch", ["playstation", "xbox"]),
    ("refrigerator", ["dishwasher", "washing machine", "washer", "dryer", "microwave", "range", "cooktop", "freezer"]),
    ("fridge", ["dishwasher", "washing machine", "washer", "dryer", "microwave", "range", "cooktop"]),
    ("dishwasher", ["refrigerator", "washing machine", "washer", "dryer", "microwave", "range"]),
    ("washer", ["refrigerator", "dishwasher", "dryer", "microwave", "range", "cooktop"]),
    ("dryer", ["refrigerator", "dishwasher", "washer", "microwave", "range", "cooktop"]),
    ("microwave", ["refrigerator", "dishwasher", "washer", "dryer", "range", "cooktop"]),
    ("range", ["refrigerator", "dishwasher", "washer", "dryer", "microwave"]),
    ("oven", ["refrigerator", "dishwasher", "washer", "dryer", "microwave"]),
    ("cooktop", ["refrigerator", "dishwasher", "washer", "dryer", "microwave"]),
    ("freezer", ["dishwasher", "washer", "dryer", "microwave", "range", "cooktop"]),
    ("air_conditioner", ["air fryer", "air fry", "air purifier", "dehumidifier",
                         "humidifier", "space heater", "fan ", "tower fan", "ceiling fan",
                         "box fan", "desk fan", "standing fan", "bladeless fan"]) ]

/-- Association-list lookup (Python `dict.get(key, [])`). -/
def lookupList (tbl : List (String × List String)) (k : String) : List String :=
  match tbl.find? (fun e => e.1 = k) with
  | some e => e.2
  | none => []

/-- Non-overlapping substring count (Python `str.count`), by greedy scan.
The skip counter carries the remainder of the last counted occurrence. -/
def countSubAux (needle : List Char) : List Char → ℕ → ℕ
  | [], _ => 0
  | c :: cs, skip =>
    if skip > 0 then countSubAux needle cs (skip - 1)
    else if needle.isPrefixOf (c :: cs) then 1 + countSubAux needle cs (needle.length - 1)
    else countSubAux needle cs 0

/-- Python `hay.count(needle)` for non-empty `needle`. -/
def countSub (hay needle : String) : ℕ := countSubAux needle.data hay.data 0

/-- Python `s.rstrip()` restricted to whitespace (used to model trailing
`\s*$` in the game-title regexes). -/
def rstripWs (s : String) : String :=
  String.mk (s.data.reverse.dropWhile Char.isWhitespace).reverse

/-- `re.search(r'[,\-]\s*P\s*$', s)` where `P` ranges over the given literal
alternatives: the string must end with a comma or dash, optional whitespace,
one alternative, optional whitespace. -/
def sepPlatformSuffix (plats : List String) (s : String) : Bool :=
  let t := rstripWs s
  plats.any fun plat =>
    strEndsWith t plat &&
    (let u := rstripWs (String.mk (t.data.take (t.data.length - plat.data.length)))
     match u.data.getLast? with
     | some c => c = ',' || c = '-'
     | none => false)

/-- `re.search(r'- windows(?:\s+\[digital\])?\s*$', s)`. -/
def windowsDigitalSuffix (s : String) : Bool :=
  let t := rstripWs s
  if strEndsWith t "- windows" then true
  else if strEndsWith t "[digital]" then
    let u := String.mk (t.data.take (t.data.length - 9))
    let u' := rstripWs u
    decide (u'.data.length < u.data.length) && strEndsWith u' "- windows"
  else false

/-- `game_title_suffix_regexes`, as a decision procedure on the lowercase
product name. -/
def gameTitleSuffixMatch (pnameLower : String) : Bool :=
  sepPlatformSuffix ["playstation 4", "playstation 5"] pnameLower ||
  sepPlatformSuffix ["ps5"] pnameLower ||
  sepPlatformSuffix ["ps4"] pnameLower ||
  sepPlatformSuffix ["xbox series x", "xbox series s"] pnameLower ||
  sepPlatformSuffix ["xbox one"] pnameLower ||
  sepPlatformSuffix ["nintendo switch 2"] pnameLower ||
  sepPlatformSuffix ["nintendo switch"] pnameLower ||
  sepPlatformSuffix ["switch 2", "switch"] pnameLower ||
  windowsDigitalSuffix pnameLower

/-- The query-derived context of `_filter_and_rank_results` (everything the
per-product decisions read that depends only on the query). -/
structure QueryCtx where
  queryLower : String
  queryTerms : List String
  detectedType : Option String
  specs : List String
  isExplicitGameSearch : Bool
  isDeviceSearch : Bool
  accessoryInQuery : Bool
deriving Repr, DecidableEq

/-- Build the query context.  `query_terms` is a Python `set`; it is modelled
as a first-occurrence deduplicated list (every use is order-insensitive:
`any`, membership, counting). -/
def mkQueryCtx (query : String) : QueryCtx :=
  let ql := lowerStr query
  let terms := dedupByKey id [] (splitWs ql)
  { queryLower := ql
    queryTerms := terms
    detectedType := (productTypeKeywords.find? fun e => e.2.any fun kw => strContains ql kw).map Prod.fst
    specs := terms.filter fun t =>
      strContains t "gb" || strContains t "tb" || specColors.contains t
    isExplicitGameSearch := gameSearchWords.any fun g => strContains ql g
    isDeviceSearch := deviceKeywords.any fun d => strContains ql d
    accessoryInQuery := accessoryKeywords.any fun a => strContains ql a }

/-- `product_text = f"{name} {short_description or ''} {model_number or ''}".lower()`. -/
def productText (p : Product) : String :=
  lowerStr (p.name ++ " " ++ p.shortDescription.getD "" ++ " " ++ p.modelNumber.getD "")

/-- `is_irrelevant_product`: phrase keywords by substring, single-word
keywords with word boundaries. -/
def isIrrelevantProduct (ptext : String) : Bool :=
  irrelevantKeywords.any fun kw =>
    if strContains kw " " then strContains ptext kw else wordBoundarySearch ptext kw

/-- The fate of one product in the scoring loop of `_filter_and_rank_results`:
counted as an irrelevant type, dropped by one of the other filters (including
the negative-score threshold), or kept with its final score. -/
inductive PClass where
  | irrelevant
  | dropped
  | scored (score : ℤ)
deriving Repr, DecidableEq

/-- One iteration of the scoring loop of `_filter_and_rank_results`
(everything between `for product in result.products` and
`scored_products.append`), as a function of the query context and the
product. -/
def classify (ctx : QueryCtx) (p : Product) : PClass :=
  let ptext := productText p
  if isIrrelevantProduct ptext then .irrelevant
  else
    let pnameLower := lowerStr p.name
    let isAccessoryProduct := accessoryKeywords.any fun a => strContains ptext a
    let isApplianceAccessory := applianceAccessoryFilter.any fun e =>
      strContains ctx.queryLower e.1 && e.2.any fun frag => strContains pnameLower frag
    if isApplianceAccessory then .dropped
    else
      let isGameTitle :=
        match ctx.detectedType with
        | some ty =>
          consoleHardwareTypes.contains ty && !ctx.isExplicitGameSearch &&
          (let isConsoleHardware := strContains pnameLower "console"
           let isNsMultiPlatform := !isConsoleHardware && ty = "nintendo_switch" &&
             decide (countSub pnameLower "nintendo switch" ≥ 2)
           !isConsoleHardware &&
           (isNsMultiPlatform ||
            gameTitleNamePrefixes.any (fun pre => strStartsWith pnameLower pre) ||
            gameTitleNameEndings.any (fun e => strEndsWith pnameLower e) ||
            gameTitleSuffixMatch pnameLower))
        | none => false
      if isGameTitle then .dropped
      else
        let isAccessoryByPattern :=
          match ctx.detectedType with
          | some ty =>
            ctx.isDeviceSearch && !ctx.accessoryInQuery &&
            (lookupList productTypeKeywords ty).any fun kw => strContains ptext ("for " ++ kw)
          | none => false
        if ctx.isDeviceSearch && (isAccessoryProduct || isAccessoryByPattern) &&
            !ctx.accessoryInQuery then .dropped
        else
          let hasConflict :=
            match ctx.detectedType with
            | some ty => (lookupList conflictsTable ty).any fun c => strContains pnameLower c
            | none => false
          if hasConflict then .dropped
          else
            let typeBonus : ℤ :=
              match ctx.detectedType with
              | some ty =>
                if (lookupList productTypeKeywords ty).any (fun kw => strContains pnameLower kw) then
                  if consoleHardwareTypes.contains ty && strContains pnameLower "console" then 500
                  else if consoleHardwareTypes.contains ty then 0
                  else 200
                else 0
              | none => 0
            let exactBonus : ℤ := if strContains pnameLower ctx.queryLower then 100 else 0
            let specsMatched := (ctx.specs.filter fun sp => strContains ptext sp).length
            let specsMissing := ctx.specs.length - specsMatched
            let score1 : ℤ := typeBonus + exactBonus + 50 * specsMatched - 30 * specsMissing
            if score1 < 0 then .dropped
            else
              let termsFound := (ctx.queryTerms.filter fun t => strContains ptext t).length
              let modelBonus : ℤ :=
                if (match p.modelNumber with | some m => m ≠ "" | none => False : Bool) &&
                   ctx.queryTerms.any (fun t =>
                     t.data ≠ [] && t.data.all Char.isAlphanum && decide (t.length > 3)) then 20
                else 0
              let availBonus : ℤ := if p.onlineAvailability = some true then 5 else 0
              .scored (score1 + 10 * termsFound + modelBonus + availBonus)

/-- Stable insertion (descending by score): a strictly greater score moves
ahead, ties keep the existing order. -/
def insertDesc (x : ℤ × Product) : List (ℤ × Product) → List (ℤ × Product)
  | [] => [x]
  | y :: ys => if x.1 ≥ y.1 then x :: y :: ys else y :: insertDesc x ys

/-- Stable sort, descending by score:
`scored_products.sort(key=lambda x: x[0], reverse=True)` (Python's sort is
stable; any stable sort by the same key computes the same list). -/
def sortDesc : List (ℤ × Product) → List (ℤ × Product)
  | [] => []
  | x :: xs => insertDesc x (sortDesc xs)

/-- `scored_products`: the kept `(score, product)` pairs, in input order. -/
def scoredOf (ctx : QueryCtx) (products : List Product) : List (ℤ × Product) :=
  products.filterMap fun p =>
    match classify ctx p with
    | .scored s => some (s, p)
    | _ => none

/-- `filtered_products = [p for score, p in scored_products[:max_results]]`
after the stable descending sort. -/
def filteredOf (ctx : QueryCtx) (products : List Product) (maxResults : ℕ) : List Product :=
  ((sortDesc (scoredOf ctx products)).take maxResults).map Prod.snd

/-- `BestBuyAPIClient._filter_and_rank_results`.  The Python `≥ 0.8` test on
`irrelevant_count / len(products)` (a `float` division) is modelled over `ℚ`;
no theorem below exercises the boundary. -/
def filterAndRankResults (query : String) (result : SearchResponse) (maxResults : ℕ) :
    SearchResponse :=
  if result.products = [] then result
  else
    let ctx := mkQueryCtx query
    let irrelevantCount :=
      (result.products.filter fun p => classify ctx p = PClass.irrelevant).length
    let scored := scoredOf ctx result.products
    let filtered := filteredOf ctx result.products maxResults
    let finalProducts :=
      if filtered = [] then
        if (irrelevantCount : ℚ) / result.products.length ≥ 4/5 then []
        else if scored ≠ [] then ((sortDesc scored).take maxResults).map Prod.snd
        else []
      else filtered
    { total := finalProducts.length
      products := finalProducts.take maxResults
      from_ := 1
      to_ := min maxResults finalProducts.length
      currentPage := 1
      totalPages := 1 }

end BestBuy

namespace BestBuy

/-- Outcome of one upstream HTTP call, after JSON parsing: either the parsed
payload, or an `httpx` transport error (`none`) / HTTP status error
(`some code`). -/
inductive Upstream (α : Type) where
  | ok (data : α)
  | httpError (status : Option ℕ)
deriving Repr, DecidableEq

/-- Python `str(p.sku)`: `str(None) = "None"`, `str(int)` its digits. -/
def skuStr (p : Product) : String :=
  match p.sku with
  | some n => toString n
  | none => "None"

/-- `BestBuyAPIClient.search_products`, as a function of the upstream outcome
(payload: `total` and the parsed product list).  `except httpx.HTTPError:
raise` / `except Exception: raise` — errors propagate. -/
def search_products (u : Upstream (ℤ × List Product)) (query : String) (pageSize : ℕ) :
    Except (Option ℕ) SearchResponse :=
  match u with
  | .ok d =>
    let requestSize : ℕ := min (pageSize * 4) 50
    let result : SearchResponse :=
      { total := d.1
        products := d.2
        from_ := 1
        to_ := min (requestSize : ℤ) d.2.length
        currentPage := 1
        totalPages := if requestSize > 0 then Int.fdiv (d.1 + requestSize - 1) requestSize else 1 }
    .ok (filterAndRankResults query result pageSize)
  | .httpError e => .error e

/-- `BestBuyAPIClient.search_by_upc`: not-found (total 0) returns `None`;
HTTP errors propagate (`except httpx.HTTPError: raise`).  A payload with
`total > 0` but no products raises `IndexError` in Python (`products[0]`),
re-raised by the catch-all — modelled as a transport-less error. -/
def search_by_upc (u : Upstream (ℤ × List Product)) : Except (Option ℕ) (Option Product) :=
  match u with
  | .ok d =>
    if d.1 > 0 then
      match d.2 with
      | p :: _ => .ok (some p)
      | [] => .error none
    else .ok none
  | .httpError e => .error e

/-- `BestBuyAPIClient.get_product_by_sku`: empty product list returns `None`,
HTTP 404 returns `None`, other errors propagate. -/
def get_product_by_sku (u : Upstream (List Product)) : Except (Option ℕ) (Option Product) :=
  match u with
  | .ok products => .ok products.head?
  | .httpError (some 404) => .ok none
  | .httpError e => .error e

/-- `BestBuyAPIClient.get_recommendations`: any error returns `[]`
(payload modelled as the list already mapped by `_map_recommendation_item`). -/
def get_recommendations (u : Upstream (List Product)) : List Product :=
  match u with
  | .ok products => products
  | .httpError _ => []

/-- `BestBuyAPIClient.get_similar_products`: any error returns `[]`. -/
def get_similar_products (u : Upstream (List Product)) : List Product :=
  match u with
  | .ok products => products
  | .httpError _ => []

/-- `BestBuyAPIClient.get_also_bought`: any error returns `[]`. -/
def get_also_bought (u : Upstream (List Product)) : List Product :=
  match u with
  | .ok products => products
  | .httpError _ => []

/-- `BestBuyAPIClient.advanced_search` (error handling and post-processing;
the request construction only shapes the upstream call, which is the oracle
here): any error returns the empty response. -/
def advanced_search (u : Upstream (ℤ × List Product)) (query : String) (pageSize : ℕ) :
    SearchResponse :=
  match u with
  | .ok d =>
    if query ≠ "" ∧ d.2 ≠ [] then
      let result : SearchResponse :=
        { total := d.1, products := d.2, from_ := 1, to_ := d.2.length,
          currentPage := 1, totalPages := 1 }
      filterAndRankResults query result pageSize
    else
      { total := (d.2.take pageSize).length, products := d.2.take pageSize,
        from_ := 1, to_ := min (pageSize : ℤ) d.2.length, currentPage := 1, totalPages := 1 }
  | .httpError _ =>
    { total := 0, products := [], from_ := 1, to_ := 0, currentPage := 1, totalPages := 0 }

/-- A Best Buy category (`schemas/category.py`, fields used here). -/
structure Category where
  id : String
  name : Option String
deriving Repr, DecidableEq

/-- `CategorySearchResponse`. -/
structure CategorySearchResponse where
  total : ℤ
  categories : List Category
  from_ : ℤ
  to_ : ℤ
  currentPage : ℤ
  totalPages : ℤ
deriving Repr, DecidableEq

/-- `BestBuyAPIClient.get_categories`, cache-miss path: any error returns the
empty response. -/
def get_categories (u : Upstream (ℤ × List Category)) : CategorySearchResponse :=
  match u with
  | .ok d =>
    { total := d.1, categories := d.2, from_ := 1, to_ := d.2.length,
      currentPage := 1, totalPages := 1 }
  | .httpError _ =>
    { total := 0, categories := [], from_ := 1, to_ := 0, currentPage := 1, totalPages := 0 }

/-- `BestBuyAPIClient.search_categories`, cache-miss path: any error returns
the empty response. -/
def search_categories (u : Upstream (ℤ × List Category)) : CategorySearchResponse :=
  match u with
  | .ok d =>
    { total := d.1, categories := d.2, from_ := 1, to_ := d.2.length,
      currentPage := 1, totalPages := 1 }
  | .httpError _ =>
    { total := 0, categories := [], from_ := 1, to_ := 0, currentPage := 1, totalPages := 0 }

/-- One open-box offer (`condition`, `prices.current`, `prices.regular`;
the two URL fields are display-only and omitted). -/
structure OpenBoxOffer where
  condition : Option String
  openBoxPrice : Option ℚ
  regularPrice : Option ℚ
deriving Repr, DecidableEq

/-- One open-box result item. -/
structure OpenBoxItem where
  offers : List OpenBoxOffer
  currentPrice : Option ℚ
  title : Option String
deriving Repr, DecidableEq

/-- `BestBuyAPIClient.get_open_box_options`, returning
`(success, has_open_box, offers)`: 404 is a soft "no open box", other errors
return a failed-but-default result. -/
def get_open_box_options (u : Upstream (List OpenBoxItem)) :
    Bool × Bool × List OpenBoxOffer :=
  match u with
  | .ok [] => (true, false, [])
  | .ok (item :: _) => (true, true, item.offers)
  | .httpError (some 404) => (true, false, [])
  | .httpError _ => (false, false, [])

end BestBuy

namespace BestBuy

/-- The fields of `Store` consulted here. -/
structure Store where
  storeId : Option ℤ
  name : Option String
deriving Repr, DecidableEq

/-- `StoreAvailability`. -/
structure StoreAvailability where
  store : Store
  sku : ℤ
  inStock : Bool
  pickupEligible : Bool
  shipFromStoreEligible : Bool
deriving Repr, DecidableEq

/-- `StoreSearchResponse`. -/
structure StoreSearchResponse where
  sku : ℤ
  productName : String
  stores : List StoreAvailability
  totalStores : ℕ
deriving Repr, DecidableEq

/-- `BestBuyAPIClient.get_store_availability`, as a function of the two kinds
of upstream outcomes: the store-locator call and the per-store availability
calls (indexed by loop position; payload `(inStoreAvailability,
pickupEligible, shipFromStoreEligible)`).  Returns the response together with
the number of upstream calls issued (each iteration of the store loop issues
its call before any error is caught). -/
def get_store_availability
    (locator : Upstream (List Store))
    (avail : ℕ → Upstream (Bool × Bool × Bool))
    (sku : ℤ) (maxStores : ℕ) (productName : Option String) :
    StoreSearchResponse × ℕ :=
  let defaultName := productName.getD ("Product " ++ toString sku)
  match locator with
  | .httpError _ => ({ sku := sku, productName := defaultName, stores := [], totalStores := 0 }, 1)
  | .ok storesList =>
    if storesList = [] then
      ({ sku := sku, productName := defaultName, stores := [], totalStores := 0 }, 1)
    else
      let checked := storesList.take (max 1 maxStores)
      let resultStores := checked.enum.filterMap fun iSt =>
        match avail iSt.1 with
        | .ok flags =>
          some { store := iSt.2, sku := sku, inStock := flags.1,
                 pickupEligible := flags.2.1, shipFromStoreEligible := flags.2.2 }
        | .httpError _ => none
      ({ sku := sku, productName := defaultName, stores := resultStores,
         totalStores := resultStores.length }, 1 + checked.length)

/-- `CATEGORY_NAME_TO_QUERIES`, in source order.  The Python source lists the
key `"monitors"` twice; dict-literal semantics keep the later value, so
lookups below search the list from the end. -/
def CATEGORY_NAME_TO_QUERIES : List (String × String) :=
  [ ("televisions", "soundbar streaming device"),
    ("tv", "soundbar streaming device"),
    ("television", "soundbar streaming device"),
    ("flat-screen tvs", "soundbar streaming device"),
    ("flat screen tvs", "soundbar streaming device"),
    ("oled", "soundbar HDMI cable"),
    ("qled", "soundbar HDMI cable"),
    ("4k tv", "soundbar streaming device"),
    ("monitors", "monitor stand webcam"),
    ("monitor", "monitor stand webcam"),
    ("projectors", "soundbar projector screen"),
    ("streaming media players", "HDMI cable remote streaming"),
    ("streaming media player", "HDMI cable remote streaming"),
    ("tv & home theater accessories", "HDMI cable TV mount surge protector"),
    ("sound bars", "receiver HDMI cable TV wall mount"),
    ("sound bar", "receiver HDMI cable TV wall mount"),
    ("soundbar", "receiver HDMI cable TV wall mount"),
    ("receivers & amplifiers", "speaker wire speaker surround sound"),
    ("speakers", "speaker stand audio cable"),
    ("speaker", "speaker stand audio cable"),
    ("headphones", "headphone stand audio cable"),
    ("headphone", "headphone stand audio cable"),
    ("earbuds", "earbuds case wireless charger"),
    ("laptops", "laptop bag USB hub"),
    ("laptop", "laptop bag USB hub"),
    ("notebooks", "laptop bag external monitor"),
    ("macbooks", "laptop bag USB hub"),
    ("desktops", "monitor keyboard mouse"),
    ("desktop", "monitor keyboard mouse"),
    ("gaming desktops", "gaming monitor gaming keyboard gaming headset"),
    ("tablets", "tablet case keyboard"),
    ("tablet", "tablet case keyboard"),
    ("ipads", "iPad case keyboard Apple Pencil"),
    ("monitors", "monitor stand monitor arm webcam"),
    ("computer accessories & peripherals", "USB hub keyboard mouse monitor"),
    ("pc gaming", "gaming headset gaming mouse gaming keyboard"),
    ("virtual reality", "VR controller VR head strap battery"),
    ("cell phones", "phone case wireless earbuds wireless charger"),
    ("cell phone", "phone case wireless earbuds wireless charger"),
    ("smartphones", "phone case wireless earbuds wireless charger"),
    ("unlocked cell phones", "phone case screen protector wireless charger"),
    ("iphones", "iPhone case AirPods wireless charger"),
    ("samsung galaxy phones", "Samsung case Galaxy Buds wireless charger"),
    ("cell phone cases", "screen protector wireless charger cable"),
    ("cell phone chargers & cables", "wireless charger USB hub power bank"),
    ("tablet accessories", "tablet case stylus keyboard"),
    ("cameras", "camera memory card camera bag"),
    ("camera", "camera memory card camera bag"),
    ("digital cameras", "camera memory card camera bag"),
    ("mirrorless cameras", "camera lens memory card camera bag"),
    ("dslr", "camera lens memory card flash"),
    ("dslr cameras", "camera lens memory card flash"),
    ("point & shoot cameras", "memory card camera case"),
    ("digital camera accessories", "memory card camera bag tripod"),
    ("drones & drone accessories", "drone battery propeller drone bag"),
    ("security cameras & surveillance", "security camera mount NVR Ethernet cable"),
    ("video games", "gaming headset game controller charging dock"),
    ("gaming", "gaming headset game controller charging dock"),
    ("game consoles", "gaming headset controller charging dock"),
    ("playstation", "PlayStation controller gaming headset"),
    ("xbox", "Xbox controller gaming headset"),
    ("nintendo", "Nintendo Switch case controller"),
    ("refrigerators", "water filter ice maker refrigerator organizer"),
    ("refrigerator", "water filter ice maker refrigerator organizer"),
    ("fridge", "water filter ice maker refrigerator organizer"),
    ("dishwashers", "dishwasher cleaner dishwasher rack"),
    ("dishwasher", "dishwasher cleaner dishwasher rack"),
    ("ranges", "range hood cookware baking sheet"),
    ("range", "range hood cookware baking sheet"),
    ("cooktops", "range hood cookware induction pan"),
    ("microwaves", "microwave tray microwave cleaner plate"),
    ("microwave", "microwave tray microwave cleaner plate"),
    ("washers & dryers", "laundry detergent dryer sheet pedestal"),
    ("washer", "laundry detergent dryer sheet"),
    ("dryer", "dryer sheet laundry detergent dryer vent"),
    ("freezers & ice makers", "freezer basket ice maker water filter"),
    ("freezer", "freezer basket ice maker water filter"),
    ("small kitchen appliances", "coffee maker air fryer blender toaster"),
    ("vacuums & floor care", "vacuum filter vacuum bag mop pad"),
    ("vacuum", "vacuum filter vacuum bag mop pad"),
    ("air purifiers", "air purifier filter humidifier"),
    ("air purifier", "air purifier filter"),
    ("space heaters", "space heater thermostat humidifier"),
    ("humidifiers", "humidifier filter air purifier"),
    ("air conditioners", "window kit remote control cover"),
    ("air conditioner", "window kit remote control cover"),
    ("window air conditioner", "window kit remote control cover"),
    ("portable air conditioner", "window kit exhaust hose"),
    ("grills & outdoor kitchens", "grill cover grill brush outdoor thermometer"),
    ("smart home", "smart plug smart bulb smart hub"),
    ("smart speakers & displays", "smart home hub smart bulb smart plug"),
    ("smart thermostats", "smart thermostat sensor smart home hub"),
    ("smart lighting", "smart bulb smart switch smart home hub"),
    ("wi-fi & networking", "WiFi extender Ethernet switch access point"),
    ("networking", "WiFi extender Ethernet switch access point"),
    ("printers", "printer ink cartridge paper"),
    ("printer", "printer ink cartridge paper"),
    ("smartwatches", "smartwatch band wireless charger"),
    ("smartwatch", "smartwatch band wireless charger"),
    ("fitness trackers & accessories", "fitness band heart rate monitor sports earbuds"),
    ("fitness tracker", "fitness band heart rate monitor"),
    ("car safety & security", "dash cam backup camera radar detector"),
    ("ev charging", "EV charger charging cable adapter"),
    ("electric scooters", "scooter lock helmet scooter bag"),
    ("hair care", "hair dryer hair straightener brush"),
    ("shaving & hair removal", "razor blade shaving cream trimmer"),
    ("oral care", "electric toothbrush replacement head floss"),
    ("toys, games & collectibles", "board game LEGO trading card"),
    ("exercise & fitness equipment", "resistance band yoga mat dumbbells"),
    ("workout recovery", "foam roller massage gun heating pad"),
    ("patio furniture & decor", "patio cover outdoor cushion string light"),
    ("office furniture", "monitor arm desk organizer ergonomic chair"),
    ("baby care", "baby monitor baby cam white noise machine"),
    ("tv stands", "TV mount HDMI cable cable management") ]

/-- The last-resort keyword scan of `_get_complement_query`, in source order. -/
def complementKeywordScan : List (String × String) :=
  [ ("refrigerator", "water filter ice maker refrigerator organizer"),
    ("fridge", "water filter ice maker refrigerator organizer"),
    ("washer", "laundry detergent dryer sheet"),
    ("dryer", "dryer sheet laundry detergent"),
    ("dishwasher", "dishwasher cleaner dishwasher rack"),
    ("microwave", "microwave tray plate cleaner"),
    ("range", "range hood cookware"),
    ("freezer", "freezer basket ice maker"),
    ("vacuum", "vacuum filter vacuum bag"),
    ("appliance", "kitchen appliance organizer"),
    ("tv", "soundbar streaming device"),
    ("television", "soundbar streaming device"),
    ("laptop", "laptop bag USB hub"),
    ("phone", "phone case wireless earbuds"),
    ("camera", "camera memory card camera bag"),
    ("game", "gaming headset controller"),
    ("tablet", "tablet case keyboard"),
    ("smartwatch", "smartwatch band charger"),
    ("speaker", "speaker stand audio cable"),
    ("printer", "printer ink cartridge"),
    ("drone", "drone battery propeller"),
    ("smart", "smart home hub smart plug"),
    ("grill", "grill cover grill brush"),
    ("fitness", "resistance band yoga mat"),
    ("scooter", "scooter lock helmet"),
    ("ev", "EV charger charging cable") ]

/-- Python `s.strip()` (whitespace both ends). -/
def stripWs (s : String) : String :=
  String.mk ((s.data.dropWhile Char.isWhitespace).reverse.dropWhile Char.isWhitespace).reverse

/-- Dict lookup with literal-dict semantics (later duplicate keys win). -/
def dictLookup (tbl : List (String × String)) (k : String) : Option String :=
  (tbl.reverse.find? fun e => e.1 = k).map Prod.snd

/-- `_get_complement_query`: first category hint found in
`CATEGORY_NAME_TO_QUERIES` wins; otherwise a keyword scan over the joined
hints; otherwise `""`.  The manufacturer hint is deliberately unused. -/
def get_complement_query (categoryHints : List String) (manufacturerHint : Option String) :
    String :=
  match categoryHints.findSome? (fun cat =>
      dictLookup CATEGORY_NAME_TO_QUERIES (stripWs (lowerStr cat))) with
  | some q => q
  | none =>
    let catStr := lowerStr (String.intercalate " " categoryHints)
    match complementKeywordScan.findSome? (fun kq =>
        if strContains catStr kq.1 then some kq.2 else none) with
    | some q => q
    | none => ""

/-- The accumulation loops of `get_complementary_products`: append products
whose `str(p.sku)` has not been seen, extending the seen set. -/
def addNewProducts : List String → List Product → List Product → List String × List Product
  | seen, acc, [] => (seen, acc)
  | seen, acc, p :: ps =>
    if skuStr p ∈ seen then addNewProducts seen acc ps
    else addNewProducts (skuStr p :: seen) (acc ++ [p]) ps

/-- `BestBuyAPIClient.get_complementary_products`, as a function of the
upstream results: `alsoBoughtResult` is what `get_also_bought` returned
(already `[]` on upstream error) and `searchOutcome` the products of
`search_products(fallback_query, page_size=6)` (`.error` when that call
raised — the exception is caught and logged).  Returns the product list and
the number of upstream calls issued. -/
def get_complementary_products
    (alsoBoughtResult : List Product)
    (searchOutcome : Except Unit (List Product))
    (sku : String) (categoryHints : List String) (manufacturerHint : Option String) :
    List Product × ℕ :=
  let a := addNewProducts [sku] [] alsoBoughtResult
  let results := a.2
  if results.length ≥ 3 then (results.take 6, 1)
  else
    let fallbackQuery :=
      if categoryHints ≠ [] then get_complement_query categoryHints manufacturerHint else ""
    if fallbackQuery ≠ "" then
      match searchOutcome with
      | .ok ps => ((addNewProducts a.1 results ps).2.take 6, 2)
      | .error _ => (results.take 6, 2)
    else (results.take 6, 1)

end BestBuy

/-! ## Chat service (`app/services/chat_service.py`) -/

namespace ChatService

/-- One Gemini response: assistant text and requested tool calls (only the
presence and identity of calls drive the loop; arguments are carried opaquely
by the name). -/
structure ModelResponse where
  message : String
  functionCalls : List String
deriving Repr, DecidableEq

/-- `MAX_ROUNDS` of the function-calling loop. -/
def MAX_ROUNDS : ℕ := 3

/-- The `while pending_calls and rounds < MAX_ROUNDS` loop of
`process_message`, with `respond i` the Gemini response to the `i`-th
round-result message (0-based).  Recursion is on `MAX_ROUNDS - rounds`.
Returns `(ai_message, pending_calls, rounds)` at loop exit. -/
def fcLoop (respond : ℕ → ModelResponse) :
    ℕ → ℕ → List String → String → String × List String × ℕ
  | 0, rounds, pending, msg => (msg, pending, rounds)
  | r + 1, rounds, pending, msg =>
    if pending = [] then (msg, pending, rounds)
    else
      let resp := respond rounds
      fcLoop respond r (rounds + 1) resp.functionCalls resp.message

/-- The multi-round function-calling phase of `process_message`: starts from
the first-round calls (already executed) and the initial message. -/
def functionCallingLoop (respond : ℕ → ModelResponse)
    (initialCalls : List String) (initialMessage : String) :
    String × List String × ℕ :=
  fcLoop respond MAX_ROUNDS 0 initialCalls initialMessage

/-- A product dict accumulated in `all_products` (only the fields the
deduplication and SKU-focus logic consult; the remaining entries are
display-only). -/
structure CardProduct where
  sku : Option Int
  name : Option String
deriving Repr, DecidableEq

/-- `str(p.get("sku", ""))` for the accumulated dicts (the key is always
present, holding an `int` or `None`). -/
def cardKey (p : CardProduct) : String :=
  match p.sku with
  | some n => toString n
  | none => "None"

/-- The deduplication loop of `process_message`
(`seen` set, first occurrence wins, falsy keys skipped). -/
def dedupeAux : List String → List CardProduct → List CardProduct
  | _, [] => []
  | seen, p :: ps =>
    let k := cardKey p
    if k ≠ "" ∧ k ∉ seen then p :: dedupeAux (k :: seen) ps
    else dedupeAux seen ps

/-- `deduped_products` followed by `display_products = deduped_products[:8]`. -/
def displayProducts (allProducts : List CardProduct) : List CardProduct :=
  (dedupeAux [] allProducts).take 8

/-- One attempted match of `re.findall(r'\bSKU[:\s#]+(\d{6,8})\b', ·, re.I)`
at the head of the character list: case-insensitive `sku` (preceded by a word
boundary, checked by the caller), one-or-more separator characters, a run of
6–8 digits ending at a word boundary.  Returns the captured digits and the
total number of characters consumed. -/
def trySkuAt (l : List Char) : Option (List Char × ℕ) :=
  if (l.take 3).map Char.toLower = ['s', 'k', 'u'] then
    let after := l.drop 3
    let seps := after.takeWhile fun c => c = ':' || c = '#' || c.isWhitespace
    if seps.length ≥ 1 then
      let restA := after.drop seps.length
      let digits := restA.takeWhile Char.isDigit
      if 6 ≤ digits.length ∧ digits.length ≤ 8 then
        match (restA.drop digits.length).head? with
        | none => some (digits, 3 + seps.length + digits.length)
        | some d => if isWordChar d then none else some (digits, 3 + seps.length + digits.length)
      else none
    else none
  else none

/-- The `re.findall` scan: left to right, resuming after each match.  The
`Bool` tracks whether the previous character is a word character (for the
leading `\b`); the counter skips the remainder of a consumed match. -/
def findSkusAux : List Char → Bool → ℕ → List (List Char)
  | [], _, _ => []
  | c :: cs, prevWord, skip =>
    if skip > 0 then findSkusAux cs (isWordChar c) (skip - 1)
    else
      match (if prevWord then none else trySkuAt (c :: cs)) with
      | some dc => dc.1 :: findSkusAux cs (isWordChar c) (dc.2 - 1)
      | none => findSkusAux cs (isWordChar c) 0

/-- `re.findall(r'\bSKU[:\s#]+(\d{6,8})\b', s, re.IGNORECASE)`. -/
def extractSkuMentions (s : String) : List String :=
  (findSkusAux s.data false 0).map fun l => String.mk l

/-- The focused card built from a product fetched by `get_product_by_sku`
(the display-only fields are omitted). -/
def toCard (p : BestBuy.Product) : CardProduct :=
  { sku := p.sku, name := some p.name }

/-- The SKU-focus block of `process_message`: when the final text names one
or two SKUs, narrow `display_products` to those items, fetching any that are
not already displayed (`fetch` is the outcome of `get_product_by_sku`;
`.error` models a raised exception, caught and logged).  The lookup dict
`existing_by_sku` keeps the last entry per key, hence the reversed search. -/
def skuFocus (fetch : String → Except Unit (Option BestBuy.Product))
    (aiMessage : String) (display : List CardProduct) : List CardProduct :=
  if aiMessage = "" then display
  else
    let uniqueSkus := (dedupByKey id [] (extractSkuMentions aiMessage)).take 2
    if uniqueSkus = [] then display
    else
      let focused := uniqueSkus.filterMap fun s =>
        match display.reverse.find? (fun p => cardKey p = s) with
        | some p => some p
        | none =>
          match fetch s with
          | .ok (some prod) => some (toCard prod)
          | .ok none => none
          | .error _ => none
      if focused = [] then display else focused

end ChatService

/-! ## Helper lemmas -/

theorem dropWhile_head_false {α : Type} {p : α → Bool} {l : List α} {x : α} {xs : List α}
    (h : l.dropWhile p = x :: xs) : p x = false := by
  induction l with
  | nil => simp at h
  | cons a as ih =>
    by_cases hpa : p a
    · rw [List.dropWhile_cons_of_pos hpa] at h
      exact ih h
    · rw [List.dropWhile_cons_of_neg hpa] at h
      cases h
      simpa using hpa

theorem nodup_map_filter_length_le {α κ : Type} [DecidableEq κ] {f : α → κ} {l : List α}
    (h : (l.map f).Nodup) (k : κ) : (l.filter fun x => decide (f x = k)).length ≤ 1 := by
  induction l with
  | nil => simp
  | cons a as ih =>
    simp only [List.map_cons, List.nodup_cons] at h
    by_cases hek : f a = k
    · have : ∀ x ∈ as, ¬ (f x = k) := by
        intro x hx hc
        exact h.1 (hek ▸ hc ▸ List.mem_map_of_mem f hx)
      have hzero : (as.filter fun x => decide (f x = k)) = [] := by
        apply List.filter_eq_nil_iff.mpr
        intro x hx
        simpa using this x hx
      simp [List.filter_cons, hek, hzero]
    · simp only [List.filter_cons, decide_eq_true_eq, hek, if_false]
      exact ih h.2

/-! ## Claim C3: round bound of the function-calling loop -/

/-- Claim C3: for every stream of model responses that each request at least
one further tool call, the function-calling loop of
`ChatService.process_message` performs exactly `MAX_ROUNDS = 3` rounds,
terminates (the embedding is a total function — no error is raised), and
returns the text produced by the last round together with its still-pending
calls. -/
theorem claim_C3_round_bound (respond : ℕ → ChatService.ModelResponse)
    (initialCalls : List String) (initialMessage : String)
    (hInit : initialCalls ≠ [])
    (hMore : ∀ i, (respond i).functionCalls ≠ []) :
    ChatService.functionCallingLoop respond initialCalls initialMessage =
      ((respond 2).message, (respond 2).functionCalls, 3) := by
  simp [ChatService.functionCallingLoop, ChatService.MAX_ROUNDS, ChatService.fcLoop,
    hInit, hMore 0, hMore 1]

/-- Witness for C3 at a concrete response stream. -/
theorem claim_C3_round_bound_witness :
    ChatService.functionCallingLoop (fun i => ⟨"round " ++ toString i, ["search_products"]⟩)
      ["search_products"] "" = ("round 2", ["search_products"], 3) :=
  claim_C3_round_bound (fun i => ⟨"round " ++ toString i, ["search_products"]⟩)
    ["search_products"] "" (by simp) (fun i => by simp)

/-! ## Claim C7: presentation deduplication -/

namespace ChatService

theorem dedupeAux_sublist (seen : List String) (ps : List CardProduct) :
    (dedupeAux seen ps).Sublist ps := by
  induction ps generalizing seen with
  | nil => simp [dedupeAux]
  | cons p ps ih =>
    simp only [dedupeAux]
    split
    · exact (ih _).cons₂ p
    · exact (ih _).cons p

theorem dedupeAux_mem {seen : List String} {ps : List CardProduct} {q : CardProduct}
    (hq : q ∈ dedupeAux seen ps) :
    cardKey q ∉ seen ∧ cardKey q ≠ "" ∧
      ps.find? (fun r => decide (cardKey r = cardKey q)) = some q := by
  induction ps generalizing seen with
  | nil => simp [dedupeAux] at hq
  | cons p ps ih =>
    simp only [dedupeAux] at hq
    split at hq
    · rename_i hcond
      rcases List.mem_cons.mp hq with rfl | hmem
      · exact ⟨hcond.2, hcond.1, by simp [List.find?_cons]⟩
      · obtain ⟨hnot, hne, hfind⟩ := ih hmem
        have hkne : cardKey p ≠ cardKey q := by
          intro hc
          exact hnot (hc ▸ List.mem_cons_self _ _)
        refine ⟨fun hmem2 => hnot (List.mem_cons_of_mem _ hmem2), hne, ?_⟩
        simp [List.find?_cons, hkne, hfind]
    · rename_i hcond
      obtain ⟨hnot, hne, hfind⟩ := ih hq
      rw [Decidable.not_and_iff_or_not] at hcond
      have hkne : cardKey p ≠ cardKey q := by
        rcases hcond with hk0 | hkseen
        · rw [Decidable.not_not] at hk0
          exact fun hc => hne (hc ▸ hk0)
        · rw [Decidable.not_not] at hkseen
          exact fun hc => hnot (hc ▸ hkseen)
      constructor
      · exact hnot
      · exact ⟨hne, by simp [List.find?_cons, hkne, hfind]⟩

theorem dedupeAux_keys_nodup (seen : List String) (ps : List CardProduct) :
    ((dedupeAux seen ps).map cardKey).Nodup := by
  induction ps generalizing seen with
  | nil => simp [dedupeAux]
  | cons p ps ih =>
    simp only [dedupeAux]
    split
    · simp only [List.map_cons, List.nodup_cons]
      refine ⟨?_, ih _⟩
      intro hmem
      obtain ⟨q, hq, hkey⟩ := List.mem_map.mp hmem
      exact (dedupeAux_mem hq).1 (hkey ▸ List.mem_cons_self _ _)
    · exact ih _

end ChatService

/-- Claim C7: the Presentation Reducer's deduplication keeps a subsequence of
the accumulated list (hence first-seen order), contains every identifier at
most once, keeps exactly the first occurrence of each displayed item's
identifier, and is capped at 8 items. -/
theorem claim_C7_deduplication (allProducts : List ChatService.CardProduct) :
    (ChatService.displayProducts allProducts).Sublist allProducts ∧
    (∀ k : String,
      ((ChatService.displayProducts allProducts).filter
        (fun q => decide (ChatService.cardKey q = k))).length ≤ 1) ∧
    (∀ q ∈ ChatService.displayProducts allProducts,
      allProducts.find? (fun r => decide (ChatService.cardKey r = ChatService.cardKey q))
        = some q) ∧
    (ChatService.displayProducts allProducts).length ≤ 8 := by
  have hsub : (ChatService.displayProducts allProducts).Sublist
      (ChatService.dedupeAux [] allProducts) := List.take_sublist _ _
  refine ⟨hsub.trans (ChatService.dedupeAux_sublist _ _), ?_, ?_, ?_⟩
  · intro k
    have hnd : ((ChatService.displayProducts allProducts).map ChatService.cardKey).Nodup :=
      (ChatService.dedupeAux_keys_nodup [] allProducts).sublist (hsub.map _)
    exact nodup_map_filter_length_le hnd k
  · intro q hq
    exact (ChatService.dedupeAux_mem (hsub.mem hq)).2.2
  · calc (ChatService.displayProducts allProducts).length
        = min 8 (ChatService.dedupeAux [] allProducts).length := List.length_take _ _
      _ ≤ 8 := min_le_left _ _

/-! ## Claims C4 and C10: complementary products -/

namespace BestBuy

theorem addNewProducts_good (sku : String) :
    ∀ (ps : List Product) (seen : List String) (acc : List Product),
    (acc.map skuStr).Nodup → (∀ p ∈ acc, skuStr p ∈ seen) → sku ∈ seen →
    (∀ p ∈ acc, skuStr p ≠ sku) →
    ((addNewProducts seen acc ps).2.map skuStr).Nodup ∧
    (∀ p ∈ (addNewProducts seen acc ps).2, skuStr p ∈ (addNewProducts seen acc ps).1) ∧
    sku ∈ (addNewProducts seen acc ps).1 ∧
    (∀ p ∈ (addNewProducts seen acc ps).2, skuStr p ≠ sku) := by
  intro ps
  induction ps with
  | nil =>
    intro seen acc h1 h2 h3 h4
    exact ⟨h1, h2, h3, h4⟩
  | cons p ps ih =>
    intro seen acc h1 h2 h3 h4
    by_cases hmem : skuStr p ∈ seen
    · simpa [addNewProducts, hmem] using ih seen acc h1 h2 h3 h4
    · have h1' : ((acc ++ [p]).map skuStr).Nodup := by
        simp only [List.map_append, List.map_cons, List.map_nil]
        rw [List.nodup_append]
        refine ⟨h1, List.nodup_singleton _, ?_⟩
        intro k hk
        simp only [List.mem_singleton]
        intro hc
        obtain ⟨q, hq, hkey⟩ := List.mem_map.mp hk
        exact hmem (hc ▸ hkey ▸ h2 q hq)
      have h2' : ∀ q ∈ acc ++ [p], skuStr q ∈ skuStr p :: seen := by
        intro q hq
        rcases List.mem_append.mp hq with hq | hq
        · exact List.mem_cons_of_mem _ (h2 q hq)
        · simp only [List.mem_singleton] at hq
          exact hq ▸ List.mem_cons_self _ _
      have h3' : sku ∈ skuStr p :: seen := List.mem_cons_of_mem _ h3
      have h4' : ∀ q ∈ acc ++ [p], skuStr q ≠ sku := by
        intro q hq
        rcases List.mem_append.mp hq with hq | hq
        · exact h4 q hq
        · simp only [List.mem_singleton] at hq
          subst hq
          exact fun hc => hmem (hc ▸ h3)
      simpa [addNewProducts, hmem] using ih _ _ h1' h2' h3' h4'

end BestBuy


namespace BestBuy

theorem gcp_eq_of_ge {alsoBoughtResult : List Product} {sku : String}
    (searchOutcome : Except Unit (List Product)) (categoryHints : List String)
    (manufacturerHint : Option String)
    (h : (addNewProducts [sku] [] alsoBoughtResult).2.length ≥ 3) :
    get_complementary_products alsoBoughtResult searchOutcome sku categoryHints
      manufacturerHint = ((addNewProducts [sku] [] alsoBoughtResult).2.take 6, 1) := by
  simp [get_complementary_products, h]

theorem gcp_eq_of_no_query {alsoBoughtResult : List Product} {sku : String}
    {categoryHints : List String} {manufacturerHint : Option String}
    (searchOutcome : Except Unit (List Product))
    (h : ¬ (addNewProducts [sku] [] alsoBoughtResult).2.length ≥ 3)
    (hq : (if categoryHints ≠ [] then get_complement_query categoryHints manufacturerHint
            else "") = "") :
    get_complementary_products alsoBoughtResult searchOutcome sku categoryHints
      manufacturerHint = ((addNewProducts [sku] [] alsoBoughtResult).2.take 6, 1) := by
  simp only [get_complementary_products, if_neg h, hq]
  simp

theorem gcp_eq_of_query_ok {alsoBoughtResult : List Product} {sku : String}
    {categoryHints : List String} {manufacturerHint : Option String}
    {ps : List Product}
    (h : ¬ (addNewProducts [sku] [] alsoBoughtResult).2.length ≥ 3)
    (hq : (if categoryHints ≠ [] then get_complement_query categoryHints manufacturerHint
            else "") ≠ "") :
    get_complementary_products alsoBoughtResult (.ok ps) sku categoryHints
      manufacturerHint =
      ((addNewProducts (addNewProducts [sku] [] alsoBoughtResult).1
          (addNewProducts [sku] [] alsoBoughtResult).2 ps).2.take 6, 2) := by
  simp only [get_complementary_products, if_neg h, if_pos hq]

theorem gcp_eq_of_query_err {alsoBoughtResult : List Product} {sku : String}
    {categoryHints : List String} {manufacturerHint : Option String} {e : Unit}
    (h : ¬ (addNewProducts [sku] [] alsoBoughtResult).2.length ≥ 3)
    (hq : (if categoryHints ≠ [] then get_complement_query categoryHints manufacturerHint
            else "") ≠ "") :
    get_complementary_products alsoBoughtResult (.error e) sku categoryHints
      manufacturerHint = ((addNewProducts [sku] [] alsoBoughtResult).2.take 6, 2) := by
  simp only [get_complementary_products, if_neg h, if_pos hq]

end BestBuy

/-- Claim C10: `get_complementary_products` never returns the anchor SKU and
never returns two products with the same identifier (`str(p.sku)`), whatever
the alsoBought and fallback-search results contain. -/
theorem claim_C10_no_anchor_no_dups (alsoBoughtResult : List BestBuy.Product)
    (searchOutcome : Except Unit (List BestBuy.Product)) (sku : String)
    (categoryHints : List String) (manufacturerHint : Option String) :
    (∀ p ∈ (BestBuy.get_complementary_products alsoBoughtResult searchOutcome sku
        categoryHints manufacturerHint).1, BestBuy.skuStr p ≠ sku) ∧
    ((BestBuy.get_complementary_products alsoBoughtResult searchOutcome sku
        categoryHints manufacturerHint).1.map BestBuy.skuStr).Nodup := by
  obtain ⟨hnd, hsub, hsku, hne⟩ := BestBuy.addNewProducts_good sku alsoBoughtResult [sku] []
    (by simp) (by simp) (List.mem_singleton.mpr rfl) (by simp)
  have goal_of : ∀ l : List BestBuy.Product, (∀ p ∈ l, BestBuy.skuStr p ≠ sku) →
      ((l.map BestBuy.skuStr).Nodup) →
      (∀ p ∈ l.take 6, BestBuy.skuStr p ≠ sku) ∧ ((l.take 6).map BestBuy.skuStr).Nodup := by
    intro l hl hl2
    exact ⟨fun p hp => hl p ((List.take_sublist _ _).mem hp),
      hl2.sublist ((List.take_sublist _ _).map _)⟩
  by_cases h3 : (BestBuy.addNewProducts [sku] [] alsoBoughtResult).2.length ≥ 3
  · rw [BestBuy.gcp_eq_of_ge searchOutcome categoryHints manufacturerHint h3]
    exact goal_of _ hne hnd
  · by_cases hq : (if categoryHints ≠ [] then
        BestBuy.get_complement_query categoryHints manufacturerHint else "") = ""
    · rw [BestBuy.gcp_eq_of_no_query searchOutcome h3 hq]
      exact goal_of _ hne hnd
    · match searchOutcome with
      | .ok ps =>
        rw [BestBuy.gcp_eq_of_query_ok h3 hq]
        obtain ⟨hnd2, _, _, hne2⟩ := BestBuy.addNewProducts_good sku ps
          (BestBuy.addNewProducts [sku] [] alsoBoughtResult).1
          (BestBuy.addNewProducts [sku] [] alsoBoughtResult).2 hnd hsub hsku hne
        exact goal_of _ hne2 hnd2
      | .error e =>
        rw [BestBuy.gcp_eq_of_query_err h3 hq]
        exact goal_of _ hne hnd

/-- Claim C4: `get_complementary_products` issues at most two upstream calls;
the second call happens only when the deduplicated alsoBought yield is below
three; the returned list has at most 6 items; and in the scenario where the
alsoBought call yields exactly 2 distinct non-anchor items and the category
hints map to a known fallback query, exactly one additional upstream search
(two calls in total) is issued. -/
theorem claim_C4_call_budget (alsoBoughtResult : List BestBuy.Product)
    (searchOutcome : Except Unit (List BestBuy.Product)) (sku : String)
    (categoryHints : List String) (manufacturerHint : Option String) :
    (BestBuy.get_complementary_products alsoBoughtResult searchOutcome sku
        categoryHints manufacturerHint).2 ≤ 2 ∧
    ((BestBuy.get_complementary_products alsoBoughtResult searchOutcome sku
        categoryHints manufacturerHint).2 = 2 →
      (BestBuy.addNewProducts [sku] [] alsoBoughtResult).2.length < 3) ∧
    (BestBuy.get_complementary_products alsoBoughtResult searchOutcome sku
        categoryHints manufacturerHint).1.length ≤ 6 ∧
    ((BestBuy.addNewProducts [sku] [] alsoBoughtResult).2.length = 2 →
      categoryHints ≠ [] →
      BestBuy.get_complement_query categoryHints manufacturerHint ≠ "" →
      (BestBuy.get_complementary_products alsoBoughtResult searchOutcome sku
        categoryHints manufacturerHint).2 = 2) := by
  have hlen6 : ∀ l : List BestBuy.Product, (l.take 6).length ≤ 6 := by
    intro l
    calc (l.take 6).length = min 6 l.length := List.length_take _ _
      _ ≤ 6 := min_le_left _ _
  by_cases h3 : (BestBuy.addNewProducts [sku] [] alsoBoughtResult).2.length ≥ 3
  · rw [BestBuy.gcp_eq_of_ge searchOutcome categoryHints manufacturerHint h3]
    exact ⟨by norm_num, by omega, hlen6 _, fun h2 _ _ => by omega⟩
  · by_cases hq : (if categoryHints ≠ [] then
        BestBuy.get_complement_query categoryHints manufacturerHint else "") = ""
    · rw [BestBuy.gcp_eq_of_no_query searchOutcome h3 hq]
      refine ⟨by norm_num, by omega, hlen6 _, ?_⟩
      intro _ hhints hquery
      rw [if_pos hhints] at hq
      exact absurd hq hquery
    · match searchOutcome with
      | .ok ps =>
        rw [BestBuy.gcp_eq_of_query_ok h3 hq]
        exact ⟨le_refl 2, fun _ => by omega, hlen6 _, fun _ _ _ => rfl⟩
      | .error e =>
        rw [BestBuy.gcp_eq_of_query_err h3 hq]
        exact ⟨le_refl 2, fun _ => by omega, hlen6 _, fun _ _ _ => rfl⟩

/-- Witness for C4: alsoBought yields 2 distinct items, the hint
`"Televisions"` maps to a known fallback query, so exactly 2 calls are issued
and at most 6 items are returned. -/
theorem claim_C4_call_budget_witness :
    (BestBuy.get_complementary_products
      [⟨some 1, "Sound bar", none, none, none⟩, ⟨some 2, "HDMI cable", none, none, none⟩]
      (.ok []) "9" ["Televisions"] none).2 = 2 ∧
    (BestBuy.get_complementary_products
      [⟨some 1, "Sound bar", none, none, none⟩, ⟨some 2, "HDMI cable", none, none, none⟩]
      (.ok []) "9" ["Televisions"] none).1.length ≤ 6 := by
  have h := claim_C4_call_budget
    [⟨some 1, "Sound bar", none, none, none⟩, ⟨some 2, "HDMI cable", none, none, none⟩]
    (.ok []) "9" ["Televisions"] none
  exact ⟨h.2.2.2 (by decide) (by decide) (by decide), h.2.2.1⟩

/-! ## Claim C5: store-availability call budget -/

/-- Counterexample to C5 as stated: with `max_stores = 2` and a locator
returning two stores, `get_store_availability` issues 3 upstream calls
(one locator + one availability call per checked store), not 2. -/
theorem claim_C5_counterexample :
    (BestBuy.get_store_availability
      (.ok [⟨some 1, some "Store A"⟩, ⟨some 2, some "Store B"⟩])
      (fun _ => .ok (true, true, true)) 6505534 2 none).2 = 3 := by
  decide

/-- Claim C5 (amended): `get_store_availability` issues one store-locator call
plus one availability call per checked store — `1 + min (max 1 max_stores) s`
upstream calls where `s` is the number of stores the locator returned, and a
single call when the locator fails; in particular exactly 2 calls whenever
`max_stores = 1` and at least one store is found. -/
theorem claim_C5_amended (stores : List BestBuy.Store)
    (avail : ℕ → BestBuy.Upstream (Bool × Bool × Bool)) (e : Option ℕ)
    (sku : ℤ) (maxStores : ℕ) (productName : Option String) :
    ((stores ≠ [] →
      (BestBuy.get_store_availability (.ok stores) avail sku maxStores productName).2
        = 1 + min (max 1 maxStores) stores.length) ∧
     (stores = [] →
      (BestBuy.get_store_availability (.ok stores) avail sku maxStores productName).2 = 1) ∧
     (BestBuy.get_store_availability (.httpError e) avail sku maxStores productName).2 = 1) ∧
    (maxStores = 1 → stores ≠ [] →
      (BestBuy.get_store_availability (.ok stores) avail sku maxStores productName).2 = 2) := by
  have hcount : stores ≠ [] →
      (BestBuy.get_store_availability (.ok stores) avail sku maxStores productName).2
        = 1 + min (max 1 maxStores) stores.length := by
    intro hne
    simp only [BestBuy.get_store_availability, if_neg hne]
    rw [List.length_take]
  refine ⟨⟨hcount, ?_, ?_⟩, ?_⟩
  · intro he
    simp [BestBuy.get_store_availability, he]
  · simp [BestBuy.get_store_availability]
  · intro hm hne
    rw [hcount hne, hm]
    have h1 : 1 ≤ stores.length := by
      cases stores with
      | nil => exact absurd rfl hne
      | cons s ss => simp
    omega

/-- Witness for C5 (amended) at a concrete input: one store, `max_stores = 1`,
so exactly 2 calls. -/
theorem claim_C5_amended_witness :
    (BestBuy.get_store_availability (.ok [⟨some 1, some "Store A"⟩])
      (fun _ => .ok (true, false, false)) 6505534 1 none).2 = 2 :=
  (claim_C5_amended [⟨some 1, some "Store A"⟩] (fun _ => .ok (true, false, false))
    none 6505534 1 none).2 rfl (by decide)

/-! ## Claim C2: gateway error handling -/

/-- Counterexample to C2 as stated: `search_products` does not fail soft — a
transport/HTTP status error propagates out of it (`except httpx.HTTPError:
raise`) instead of yielding an empty result. -/
theorem claim_C2_counterexample :
    BestBuy.search_products (.httpError (some 500)) "tv" 5 = .error (some 500) := by
  rfl

/-- Claim C2 (amended): on transport/status errors every gateway operation
fails soft to an empty or default result, except `search_products`,
`search_by_upc` and `get_product_by_sku`, which propagate the error
(`get_product_by_sku` maps HTTP 404 to the explicit not-found `none`); the
single-item identifier lookups return an explicit `none` on not-found,
distinguishable from an error. -/
theorem claim_C2_amended (e : Option ℕ) (q : String) (n : ℕ)
    (avail : ℕ → BestBuy.Upstream (Bool × Bool × Bool)) (sku : ℤ) (m : ℕ)
    (pn : Option String) (skuS : String) (hints : List String) (mh : Option String)
    (ps : List BestBuy.Product) (he : e ≠ some 404) :
    BestBuy.search_products (.httpError e) q n = .error e ∧
    BestBuy.search_by_upc (.httpError e) = .error e ∧
    BestBuy.get_product_by_sku (.httpError e) = .error e ∧
    BestBuy.get_product_by_sku (.httpError (some 404)) = .ok none ∧
    BestBuy.get_recommendations (.httpError e) = [] ∧
    BestBuy.get_similar_products (.httpError e) = [] ∧
    BestBuy.get_also_bought (.httpError e) = [] ∧
    (BestBuy.get_store_availability (.httpError e) avail sku m pn).1.stores = [] ∧
    BestBuy.advanced_search (.httpError e) q n
      = { total := 0, products := [], from_ := 1, to_ := 0, currentPage := 1, totalPages := 0 } ∧
    BestBuy.get_categories (.httpError e)
      = { total := 0, categories := [], from_ := 1, to_ := 0, currentPage := 1, totalPages := 0 } ∧
    BestBuy.search_categories (.httpError e)
      = { total := 0, categories := [], from_ := 1, to_ := 0, currentPage := 1, totalPages := 0 } ∧
    BestBuy.get_open_box_options (.httpError (some 404)) = (true, false, []) ∧
    (e ≠ some 404 → BestBuy.get_open_box_options (.httpError e) = (false, false, [])) ∧
    (BestBuy.get_complementary_products [] (.error ()) skuS hints mh).1 = [] ∧
    BestBuy.search_by_upc (.ok (0, ps)) = .ok none ∧
    BestBuy.get_product_by_sku (.ok []) = .ok none := by
  have hsku : ∀ e' : Option ℕ, e' ≠ some 404 →
      BestBuy.get_product_by_sku (.httpError e') = .error e' := by
    intro e' he'
    match e' with
    | none => rfl
    | some c =>
      have : c ≠ 404 := fun hc => he' (by rw [hc])
      simp [BestBuy.get_product_by_sku, this]
  have hbox : ∀ e' : Option ℕ, e' ≠ some 404 →
      BestBuy.get_open_box_options (.httpError e') = (false, false, []) := by
    intro e' he'
    match e' with
    | none => rfl
    | some c =>
      have : c ≠ 404 := fun hc => he' (by rw [hc])
      simp [BestBuy.get_open_box_options, this]
  have hcomp : (BestBuy.get_complementary_products [] (.error ()) skuS hints mh).1 = [] := by
    have h3 : ¬ (BestBuy.addNewProducts [skuS] [] ([] : List BestBuy.Product)).2.length ≥ 3 := by
      simp [BestBuy.addNewProducts]
    by_cases hq : (if hints ≠ [] then BestBuy.get_complement_query hints mh else "") = ""
    · rw [BestBuy.gcp_eq_of_no_query (.error ()) h3 hq]
      simp [BestBuy.addNewProducts]
    · rw [BestBuy.gcp_eq_of_query_err h3 hq]
      simp [BestBuy.addNewProducts]
  refine ⟨rfl, rfl, hsku e he, rfl, rfl, rfl, rfl, ?_, rfl, rfl, rfl, rfl, hbox e, hcomp, rfl, rfl⟩
  simp [BestBuy.get_store_availability]

/-- Witness for C2 (amended) at a concrete transport error. -/
theorem claim_C2_amended_witness :
    BestBuy.search_products (.httpError none) "tv" 5 = .error none ∧
    BestBuy.get_product_by_sku (.httpError none) = .error none ∧
    BestBuy.get_recommendations (.httpError none) = ([] : List BestBuy.Product) := by
  have h := claim_C2_amended none "tv" 5 (fun _ => .ok (true, true, true)) 1 1 none
    "9" [] none [] (by simp)
  exact ⟨h.1, h.2.2.1, h.2.2.2.2.1⟩

/-! ## Claim C8: SKU-focus narrowing -/

/-- Counterexample to C8 as stated: the final text names exactly one SKU, but
that SKU is neither among the displayed products nor resolvable by the detail
fetch (`get_product_by_sku` returns `None`), so the SKU-focus block leaves the
two-product display list unchanged instead of narrowing it to one product. -/
theorem claim_C8_counterexample :
    ChatService.extractSkuMentions "The best option is SKU: 650553." = ["650553"] ∧
    (ChatService.skuFocus (fun _ => .ok none) "The best option is SKU: 650553."
      [⟨some 111111, none⟩, ⟨some 222222, none⟩]).length = 2 := by
  constructor
  · rfl
  · rfl

/-- Claim C8 (amended): when the final text contains exactly one explicit
identifier mention and that identifier resolves — it either belongs to a
displayed product or the detail fetch returns a product bearing it — the
display list after SKU focus contains exactly one product, bearing that
identifier.  (When it does not resolve, the code keeps the previous display
list.) -/
theorem claim_C8_amended (fetch : String → Except Unit (Option BestBuy.Product))
    (aiMessage : String) (display : List ChatService.CardProduct) (s : String)
    (hone : ChatService.extractSkuMentions aiMessage = [s])
    (hres : (∃ p ∈ display, ChatService.cardKey p = s) ∨
            (∃ pr, fetch s = .ok (some pr) ∧ ChatService.cardKey (ChatService.toCard pr) = s)) :
    (ChatService.skuFocus fetch aiMessage display).length = 1 ∧
    ∀ q ∈ ChatService.skuFocus fetch aiMessage display, ChatService.cardKey q = s := by
  have hmsg : aiMessage ≠ "" := by
    intro hc
    rw [hc] at hone
    simp [ChatService.extractSkuMentions, ChatService.findSkusAux] at hone
  have huniq : (dedupByKey id [] (ChatService.extractSkuMentions aiMessage)).take 2 = [s] := by
    rw [hone]
    simp [dedupByKey]
  unfold ChatService.skuFocus
  rw [if_neg hmsg, huniq]
  rw [if_neg (by simp : ¬ ([s] : List String) = [])]
  simp only [List.filterMap_cons, List.filterMap_nil]
  cases hfind : display.reverse.find? (fun p => decide (ChatService.cardKey p = s)) with
  | some p =>
    have hkey : ChatService.cardKey p = s := by
      have := List.find?_some hfind
      simpa using this
    simp only []
    rw [if_neg (by simp : ¬ ([p] : List ChatService.CardProduct) = [])]
    exact ⟨rfl, by simpa using hkey⟩
  | none =>
    have hnone : ∀ p ∈ display, ChatService.cardKey p ≠ s := by
      intro p hp
      have := List.find?_eq_none.mp hfind p (List.mem_reverse.mpr hp)
      simpa using this
    rcases hres with ⟨p, hp, hkey⟩ | ⟨pr, hfetch, hkey⟩
    · exact absurd hkey (hnone p hp)
    · rw [hfetch]
      simp only []
      rw [if_neg (by simp : ¬ ([ChatService.toCard pr] : List ChatService.CardProduct) = [])]
      exact ⟨rfl, by simpa using hkey⟩

/-- Witness for C8 (amended): the mentioned SKU is already displayed, so the
list narrows to exactly that product. -/
theorem claim_C8_amended_witness :
    (ChatService.skuFocus (fun _ => .ok none) "The best option is SKU: 650553."
      [⟨some 650553, none⟩, ⟨some 222222, none⟩]).length = 1 ∧
    ∀ q ∈ ChatService.skuFocus (fun _ => .ok none) "The best option is SKU: 650553."
      [⟨some 650553, none⟩, ⟨some 222222, none⟩], ChatService.cardKey q = "650553" :=
  claim_C8_amended (fun _ => .ok none) "The best option is SKU: 650553."
    [⟨some 650553, none⟩, ⟨some 222222, none⟩] "650553" (by rfl)
    (Or.inl ⟨⟨some 650553, none⟩, by simp, by rfl⟩)

/-! ## Claim C9: relevance idempotence -/

namespace BestBuy

theorem mem_insertDesc {x y : ℤ × Product} {l : List (ℤ × Product)} :
    y ∈ insertDesc x l ↔ y = x ∨ y ∈ l := by
  induction l with
  | nil => simp [insertDesc]
  | cons a as ih =>
    simp only [insertDesc]
    split
    · simp [List.mem_cons]
    · simp only [List.mem_cons, ih]
      tauto

theorem insertDesc_pairwise {x : ℤ × Product} {l : List (ℤ × Product)}
    (hl : l.Pairwise (fun a b => b.1 ≤ a.1)) :
    (insertDesc x l).Pairwise (fun a b => b.1 ≤ a.1) := by
  induction l with
  | nil => simp [insertDesc]
  | cons a as ih =>
    rw [List.pairwise_cons] at hl
    simp only [insertDesc]
    split
    · rename_i hge
      rw [List.pairwise_cons]
      refine ⟨?_, List.pairwise_cons.mpr hl⟩
      intro b hb
      rcases List.mem_cons.mp hb with rfl | hbm
      · exact hge
      · exact le_trans (hl.1 b hbm) hge
    · rename_i hlt
      rw [List.pairwise_cons]
      refine ⟨?_, ih hl.2⟩
      intro b hb
      rcases mem_insertDesc.mp hb with rfl | hbm
      · exact le_of_not_le hlt
      · exact hl.1 b hbm

theorem sortDesc_pairwise (l : List (ℤ × Product)) :
    (sortDesc l).Pairwise (fun a b => b.1 ≤ a.1) := by
  induction l with
  | nil => simp [sortDesc]
  | cons a as ih => exact insertDesc_pairwise ih

theorem mem_sortDesc {x : ℤ × Product} {l : List (ℤ × Product)} :
    x ∈ sortDesc l ↔ x ∈ l := by
  induction l with
  | nil => simp [sortDesc]
  | cons a as ih =>
    simp only [sortDesc, mem_insertDesc, ih, List.mem_cons]

theorem sortDesc_of_pairwise {l : List (ℤ × Product)}
    (h : l.Pairwise (fun a b => b.1 ≤ a.1)) : sortDesc l = l := by
  induction l with
  | nil => rfl
  | cons a as ih =>
    rw [List.pairwise_cons] at h
    simp only [sortDesc, ih h.2]
    cases as with
    | nil => rfl
    | cons b bs =>
      simp only [insertDesc, if_pos (h.1 b (List.mem_cons_self _ _))]

theorem scoredOf_mem {ctx : QueryCtx} {ps : List Product} {x : ℤ × Product}
    (hx : x ∈ scoredOf ctx ps) : classify ctx x.2 = .scored x.1 ∧ x.2 ∈ ps := by
  obtain ⟨p, hp, heq⟩ := List.mem_filterMap.mp hx
  cases hcl : classify ctx p with
  | irrelevant => rw [hcl] at heq; simp at heq
  | dropped => rw [hcl] at heq; simp at heq
  | scored s =>
    rw [hcl] at heq
    simp only [Option.some_inj] at heq
    rw [← heq]
    exact ⟨hcl, hp⟩

theorem scoredOf_reconstruct {ctx : QueryCtx} {L : List (ℤ × Product)}
    (hL : ∀ x ∈ L, classify ctx x.2 = .scored x.1) :
    scoredOf ctx (L.map Prod.snd) = L := by
  induction L with
  | nil => rfl
  | cons a L ih =>
    have ha := hL a (List.mem_cons_self _ _)
    simp only [List.map_cons, scoredOf, List.filterMap_cons, ha]
    exact congrArg _ (ih fun x hx => hL x (List.mem_cons_of_mem _ hx))

theorem filteredOf_take (ctx : QueryCtx) (ps : List Product) (m : ℕ) :
    (filteredOf ctx ps m).take m = filteredOf ctx ps m := by
  unfold filteredOf
  rw [List.map_take, List.take_take, min_self]

theorem filteredOf_idem (ctx : QueryCtx) (ps : List Product) (m : ℕ) :
    filteredOf ctx (filteredOf ctx ps m) m = filteredOf ctx ps m := by
  have hmem : ∀ x ∈ (sortDesc (scoredOf ctx ps)).take m,
      classify ctx x.2 = .scored x.1 := by
    intro x hx
    exact (scoredOf_mem (mem_sortDesc.mp ((List.take_sublist _ _).mem hx))).1
  have hrecon : scoredOf ctx (((sortDesc (scoredOf ctx ps)).take m).map Prod.snd)
      = (sortDesc (scoredOf ctx ps)).take m := scoredOf_reconstruct hmem
  have hpw : ((sortDesc (scoredOf ctx ps)).take m).Pairwise (fun a b => b.1 ≤ a.1) :=
    (sortDesc_pairwise _).sublist (List.take_sublist _ _)
  have hlen : ((sortDesc (scoredOf ctx ps)).take m).length ≤ m := by
    rw [List.length_take]
    exact min_le_left _ _
  show filteredOf ctx (((sortDesc (scoredOf ctx ps)).take m).map Prod.snd) m = _
  unfold filteredOf
  rw [hrecon, sortDesc_of_pairwise hpw, List.take_of_length_le hlen]

theorem filterAndRank_products (q : String) (r : SearchResponse) (m : ℕ) :
    (filterAndRankResults q r m).products =
      if r.products = [] then r.products else filteredOf (mkQueryCtx q) r.products m := by
  by_cases hp : r.products = []
  · simp [filterAndRankResults, hp]
  · by_cases hf : filteredOf (mkQueryCtx q) r.products m = []
    · have hf' : ((sortDesc (scoredOf (mkQueryCtx q) r.products)).take m).map Prod.snd
          = [] := hf
      simp only [filterAndRankResults, if_neg hp, filteredOf, hf', if_pos rfl]
      simp [hf']
    · simp only [filterAndRankResults, if_neg hp, if_neg hf]
      exact filteredOf_take _ _ _

end BestBuy

/-! ## Claim C6: fallback non-emptiness (a code bug) -/

/-- Claim C6 evaluated at the failing input: a query with one unmatched spec
token (`"999gb"`), two listings, neither an irrelevant-type match (0% ≤ 50%),
both dropped by the negative-score threshold.  The code returns the empty
list: the "return top scored products as fallback" branch is unreachable
because negative-score listings never enter `scored_products`, so the
fallback promised by the spec (and by the code's own comments) cannot fire. -/
theorem claim_C6_fallback_bug :
    BestBuy.classify (BestBuy.mkQueryCtx "zzz 999gb")
      ⟨some 1, "aaa", none, none, none⟩ = BestBuy.PClass.dropped ∧
    BestBuy.classify (BestBuy.mkQueryCtx "zzz 999gb")
      ⟨some 2, "bbb", none, none, none⟩ = BestBuy.PClass.dropped ∧
    (BestBuy.filterAndRankResults "zzz 999gb"
      ⟨2, [⟨some 1, "aaa", none, none, none⟩, ⟨some 2, "bbb", none, none, none⟩], 1, 2, 1, 1⟩
      5).products = [] := by
  refine ⟨by decide, by decide, ?_⟩
  rw [BestBuy.filterAndRank_products]
  rw [if_neg (by decide)]
  decide

/-- Claim C9: applying `_filter_and_rank_results` to its own output, with the
same query and result limit, yields the same ordered product list. -/
theorem claim_C9_relevance_idempotent (query : String) (result : BestBuy.SearchResponse)
    (maxResults : ℕ) :
    (BestBuy.filterAndRankResults query
        (BestBuy.filterAndRankResults query result maxResults) maxResults).products =
      (BestBuy.filterAndRankResults query result maxResults).products := by
  by_cases hp : result.products = []
  · rw [BestBuy.filterAndRank_products query (BestBuy.filterAndRankResults query result maxResults)
      maxResults]
    rw [BestBuy.filterAndRank_products query result maxResults, if_pos hp]
    simp [hp]
  · have hout : (BestBuy.filterAndRankResults query result maxResults).products
        = BestBuy.filteredOf (BestBuy.mkQueryCtx query) result.products maxResults := by
      rw [BestBuy.filterAndRank_products query result maxResults, if_neg hp]
    by_cases hf : BestBuy.filteredOf (BestBuy.mkQueryCtx query) result.products maxResults = []
    · rw [BestBuy.filterAndRank_products query
        (BestBuy.filterAndRankResults query result maxResults) maxResults]
      rw [hout, hf]
      simp
    · rw [BestBuy.filterAndRank_products query
        (BestBuy.filterAndRankResults query result maxResults) maxResults]
      rw [hout, if_neg hf]
      exact BestBuy.filteredOf_idem _ _ _


/-! ## Claim C1: rate limiter quota invariant -/

namespace RateLimiter

theorem mem_takeWhile_rat (p : ℚ → Bool) :
    ∀ (l : List ℚ) {x : ℚ}, x ∈ l.takeWhile p → p x = true := by
  intro l
  induction l with
  | nil => intro x hx; simp [List.takeWhile] at hx
  | cons a as ih =>
    intro x hx
    by_cases hpa : p a
    · rw [List.takeWhile_cons_of_pos hpa] at hx
      rcases List.mem_cons.mp hx with rfl | hx
      · exact hpa
      · exact ih hx
    · rw [List.takeWhile_cons_of_neg hpa] at hx
      simp at hx

theorem dropWhile_head_false_rat (p : ℚ → Bool) :
    ∀ (l : List ℚ) {x : ℚ} {xs : List ℚ}, l.dropWhile p = x :: xs → p x = false := by
  intro l
  induction l with
  | nil => intro x xs h; simp at h
  | cons a as ih =>
    intro x xs h
    by_cases hpa : p a
    · rw [List.dropWhile_cons_of_pos hpa] at h
      exact ih h
    · rw [List.dropWhile_cons_of_neg hpa] at h
      cases h
      simpa using hpa

theorem sleep_time_le (recent0 : List ℚ) (t : ℚ)
    (hne : recent0.dropWhile (fun ts => decide (ts + WINDOW ≤ t)) ≠ []) :
    t ≤ (recent0.dropWhile (fun ts => decide (ts + WINDOW ≤ t))).headD 0 + WINDOW + SAFETY := by
  cases hev : recent0.dropWhile (fun ts => decide (ts + WINDOW ≤ t)) with
  | nil => exact absurd hev hne
  | cons x xs =>
    have hx := dropWhile_head_false_rat (fun ts => decide (ts + WINDOW ≤ t)) recent0 hev
    simp only [decide_eq_false_iff_not] at hx
    have hS : (0 : ℚ) ≤ SAFETY := by norm_num [SAFETY]
    simp only [List.headD_cons]
    linarith [lt_of_not_le hx]

theorem minuteStep_le (N : ℕ) (recent0 : List ℚ) (t : ℚ) (hN : 1 ≤ N) :
    t ≤ (minuteStep N recent0 t).1 := by
  simp only [minuteStep]
  split
  · rename_i hlen
    apply sleep_time_le
    intro hc
    rw [hc] at hlen
    simp at hlen
    omega
  · exact le_refl t

theorem minuteStep_rlen (N : ℕ) (recent0 : List ℚ) (t : ℚ) (hN : 1 ≤ N)
    (hlen0 : recent0.length ≤ N) : (minuteStep N recent0 t).2.length < N := by
  simp only [minuteStep]
  split
  · rename_i hlen
    have hsub : (recent0.dropWhile (fun ts => decide (ts + WINDOW ≤ t))).length ≤
        recent0.length := (List.dropWhile_sublist _).length_le
    cases hev : recent0.dropWhile (fun ts => decide (ts + WINDOW ≤ t)) with
    | nil =>
      rw [hev] at hlen
      simp at hlen
      omega
    | cons x xs =>
      dsimp only [List.headD_cons]
      have hpx : (fun ts => decide (ts + WINDOW ≤ x + WINDOW + SAFETY)) x = true := by
        simp only [decide_eq_true_eq]
        have hS : (0 : ℚ) ≤ SAFETY := by norm_num [SAFETY]
        linarith
      have hdrop : List.dropWhile (fun ts => decide (ts + WINDOW ≤ x + WINDOW + SAFETY))
          (x :: xs)
          = List.dropWhile (fun ts => decide (ts + WINDOW ≤ x + WINDOW + SAFETY)) xs :=
        List.dropWhile_cons_of_pos hpx
      rw [hdrop]
      have h2 : (xs.dropWhile (fun ts => decide (ts + WINDOW ≤ x + WINDOW + SAFETY))).length
          ≤ xs.length := (List.dropWhile_sublist _).length_le
      rw [hev] at hsub
      simp only [List.length_cons] at hsub
      omega
  · rename_i hlen
    dsimp only
    omega

theorem minuteStep_split (N : ℕ) (recent0 : List ℚ) (t : ℚ) (hN : 1 ≤ N) :
    ∃ q, recent0 = q ++ (minuteStep N recent0 t).2 ∧
      ∀ x ∈ q, x + WINDOW ≤ (minuteStep N recent0 t).1 := by
  simp only [minuteStep]
  split
  · rename_i hlen
    have hne : recent0.dropWhile (fun ts => decide (ts + WINDOW ≤ t)) ≠ [] := by
      intro hc
      rw [hc] at hlen
      simp at hlen
      omega
    have htle := sleep_time_le recent0 t hne
    dsimp only
    refine ⟨recent0.takeWhile (fun ts => decide (ts + WINDOW ≤ t)) ++
      ((recent0.dropWhile (fun ts => decide (ts + WINDOW ≤ t))).takeWhile
        (fun ts => decide (ts + WINDOW ≤
          (recent0.dropWhile (fun ts => decide (ts + WINDOW ≤ t))).headD 0
            + WINDOW + SAFETY))), ?_, ?_⟩
    · rw [List.append_assoc, List.takeWhile_append_dropWhile,
        List.takeWhile_append_dropWhile]
    · intro x hx
      rcases List.mem_append.mp hx with hx | hx
      · have h1 := mem_takeWhile_rat (fun ts => decide (ts + WINDOW ≤ t)) recent0 hx
        simp only [decide_eq_true_eq] at h1
        exact le_trans h1 htle
      · have h1 := mem_takeWhile_rat _ _ hx
        simpa only [decide_eq_true_eq] using h1
  · dsimp only
    refine ⟨recent0.takeWhile (fun ts => decide (ts + WINDOW ≤ t)), ?_, ?_⟩
    · rw [List.takeWhile_append_dropWhile]
    · intro x hx
      have h1 := mem_takeWhile_rat (fun ts => decide (ts + WINDOW ≤ t)) recent0 hx
      simpa only [decide_eq_true_eq] using h1

theorem dailyStep_le (D : ℕ) (daily0 : List ℚ) (reset0 t : ℚ) :
    t ≤ (dailyStep D daily0 reset0 t).1 := by
  unfold dailyStep
  by_cases h1 : t ≥ reset0
  · rw [if_pos h1]
    by_cases h2 : ([] : List ℚ).length ≥ D
    · rw [if_pos h2]
      dsimp only
      norm_num [DAY]
    · rw [if_neg h2]
  · rw [if_neg h1]
    by_cases h2 : daily0.length ≥ D
    · rw [if_pos h2]
      dsimp only
      linarith [lt_of_not_le h1]
    · rw [if_neg h2]

theorem dailyStep_dlen (D : ℕ) (daily0 : List ℚ) (reset0 t : ℚ) (hD : 1 ≤ D)
    (hlen : daily0.length ≤ D) : (dailyStep D daily0 reset0 t).2.1.length < D := by
  unfold dailyStep
  by_cases h1 : t ≥ reset0
  · rw [if_pos h1]
    by_cases h2 : ([] : List ℚ).length ≥ D
    · rw [if_pos h2]
      simpa using hD
    · rw [if_neg h2]
      simpa using hD
  · rw [if_neg h1]
    by_cases h2 : daily0.length ≥ D
    · rw [if_pos h2]
      simpa using hD
    · rw [if_neg h2]
      dsimp only
      omega

/-- The run invariant: all recorded timestamps are at most the last record
time `tprev`; the `recent` queue is a suffix of the record list whose dropped
prefix is out of every window reaching past `tprev`; both queues respect
their capacities; and every half-open `WINDOW`-second window holds at most
`N` records. -/
structure Inv (N D : ℕ) (recs : List ℚ) (s : State) (tprev : ℚ) : Prop where
  le_tprev : ∀ x ∈ recs, x ≤ tprev
  recentSplit : ∃ p, recs = p ++ s.recent ∧ ∀ x ∈ p, x + WINDOW ≤ tprev
  rlen : s.recent.length ≤ N
  dlen : s.daily.length ≤ D
  windows : ∀ a : ℚ,
    (recs.filter fun x => decide (a ≤ x) && decide (x < a + WINDOW)).length ≤ N

theorem init_inv (N D : ℕ) (t0 : ℚ) : Inv N D [] (init t0) t0 := by
  exact ⟨by simp, ⟨[], by simp [init], by simp⟩, by simp [init], by simp [init], by simp⟩

theorem acquire_inv {N D : ℕ} {recs : List ℚ} {s : State} {tprev t : ℚ}
    (hN : 1 ≤ N) (hD : 1 ≤ D) (inv : Inv N D recs s tprev) (ht : tprev ≤ t) :
    Inv N D (recs ++ [(acquire N D s t).2]) (acquire N D s t).1 (acquire N D s t).2 := by
  obtain ⟨p, hp, hpw⟩ := inv.recentSplit
  have f1 : t ≤ (dailyStep D s.daily s.dailyReset t).1 := dailyStep_le D s.daily s.dailyReset t
  have f2 : (dailyStep D s.daily s.dailyReset t).1 ≤
      (minuteStep N s.recent (dailyStep D s.daily s.dailyReset t).1).1 :=
    minuteStep_le N s.recent _ hN
  obtain ⟨q, hq, hqw⟩ := minuteStep_split N s.recent (dailyStep D s.daily s.dailyReset t).1 hN
  have f5 : (minuteStep N s.recent (dailyStep D s.daily s.dailyReset t).1).2.length < N :=
    minuteStep_rlen N s.recent _ hN inv.rlen
  have f4 : (dailyStep D s.daily s.dailyReset t).2.1.length < D :=
    dailyStep_dlen D s.daily s.dailyReset t hD inv.dlen
  set d := dailyStep D s.daily s.dailyReset t with hd
  set m := minuteStep N s.recent d.1 with hm
  have htr : tprev ≤ m.1 := le_trans ht (le_trans f1 f2)
  have hacq : acquire N D s t = (⟨m.2 ++ [m.1], d.2.1 ++ [m.1], d.2.2⟩, m.1) := rfl
  rw [hacq]
  refine ⟨?_, ?_, ?_, ?_, ?_⟩
  · intro x hx
    rcases List.mem_append.mp hx with hx | hx
    · exact le_trans (inv.le_tprev x hx) htr
    · simp only [List.mem_singleton] at hx
      exact le_of_eq hx
  · refine ⟨p ++ q, ?_, ?_⟩
    · show recs ++ [m.1] = (p ++ q) ++ (m.2 ++ [m.1])
      rw [hp, hq]
      simp [List.append_assoc]
    · intro x hx
      rcases List.mem_append.mp hx with hx | hx
      · exact le_trans (hpw x hx) htr
      · exact hqw x hx
  · show (m.2 ++ [m.1]).length ≤ N
    simp only [List.length_append, List.length_singleton]
    omega
  · show (d.2.1 ++ [m.1]).length ≤ D
    simp only [List.length_append, List.length_singleton]
    omega
  · intro a
    rw [List.filter_append]
    simp only [List.length_append]
    by_cases hin : (decide (a ≤ m.1) && decide (m.1 < a + WINDOW)) = true
    · have hwin : a ≤ m.1 ∧ m.1 < a + WINDOW := by
        rw [Bool.and_eq_true, decide_eq_true_eq, decide_eq_true_eq] at hin
        exact hin
      have hprefix : ∀ x ∈ p ++ q, x + WINDOW ≤ m.1 := by
        intro x hx
        rcases List.mem_append.mp hx with hx | hx
        · exact le_trans (hpw x hx) htr
        · exact hqw x hx
      have hrecs : recs = (p ++ q) ++ m.2 := by
        rw [hp, hq, List.append_assoc]
      have hnil : ((p ++ q).filter
          fun x => decide (a ≤ x) && decide (x < a + WINDOW)) = [] := by
        apply List.filter_eq_nil_iff.mpr
        intro x hx
        have hxw := hprefix x hx
        rw [Bool.and_eq_true, decide_eq_true_eq, decide_eq_true_eq]
        rintro ⟨hax, _⟩
        linarith [hwin.2]
      have hlenrecs : (recs.filter
          fun x => decide (a ≤ x) && decide (x < a + WINDOW)).length ≤ m.2.length := by
        rw [hrecs, List.filter_append, hnil]
        simp only [List.nil_append]
        exact (List.filter_sublist _).length_le
      have hone : (([m.1]).filter
          fun x => decide (a ≤ x) && decide (x < a + WINDOW)).length ≤ 1 := by
        simp only [List.filter]
        split <;> simp
      omega
    · have hz : (([m.1]).filter
          fun x => decide (a ≤ x) && decide (x < a + WINDOW)).length = 0 := by
        simp only [List.filter]
        rw [Bool.not_eq_true] at hin
        rw [hin]
        rfl
      rw [hz]
      have := inv.windows a
      omega

theorem runGaps_inv {N D : ℕ} (hN : 1 ≤ N) (hD : 1 ≤ D) :
    ∀ (gaps : List ℚ) (recs : List ℚ) (s : State) (tprev : ℚ),
    Inv N D recs s tprev → (∀ g ∈ gaps, 0 ≤ g) →
    ∃ tf, Inv N D (recs ++ (runGaps N D s tprev gaps).2) (runGaps N D s tprev gaps).1 tf := by
  intro gaps
  induction gaps with
  | nil =>
    intro recs s tprev inv _
    exact ⟨tprev, by simpa [runGaps] using inv⟩
  | cons g gs ih =>
    intro recs s tprev inv hg
    have ht : tprev ≤ tprev + g := by
      have := hg g (List.mem_cons_self _ _)
      linarith
    have step := acquire_inv hN hD inv ht
    obtain ⟨tf, hf⟩ := ih (recs ++ [(acquire N D s (tprev + g)).2])
      (acquire N D s (tprev + g)).1 (acquire N D s (tprev + g)).2 step
      (fun g' hg' => hg g' (List.mem_cons_of_mem _ hg'))
    refine ⟨tf, ?_⟩
    simp only [runGaps]
    rw [show recs ++ ((acquire N D s (tprev + g)).2 ::
        (runGaps N D (acquire N D s (tprev + g)).1 (acquire N D s (tprev + g)).2 gs).2)
      = (recs ++ [(acquire N D s (tprev + g)).2]) ++
        (runGaps N D (acquire N D s (tprev + g)).1 (acquire N D s (tprev + g)).2 gs).2
      from by simp]
    exact hf

end RateLimiter

/-- Counterexample to C1 as stated: the daily quota resets wholesale, so a
rolling 24-hour window straddling the reset instant can hold more than `D`
recorded timestamps.  With limits `N = 2` per minute and `D = 1` per day, a
request just before the rollover (t = 86399) and one at it (t = 86400) are
both admitted and recorded; the rolling 24-hour window starting at 86398
holds 2 > 1 = D records. -/
theorem claim_C1_counterexample :
    (RateLimiter.runGaps 2 1 (RateLimiter.init 0) 0 [86399, 1]).2 = [86399, 86400] ∧
    ¬ ((((RateLimiter.runGaps 2 1 (RateLimiter.init 0) 0 [86399, 1]).2).filter
        (fun x => decide ((86398 : ℚ) ≤ x) && decide (x < 86398 + 86400))).length ≤ 1) := by
  have hrun : (RateLimiter.runGaps 2 1 (RateLimiter.init 0) 0 [86399, 1]).2
      = [86399, 86400] := by
    norm_num [RateLimiter.runGaps, RateLimiter.acquire, RateLimiter.dailyStep,
      RateLimiter.minuteStep, RateLimiter.init, RateLimiter.WINDOW, RateLimiter.SAFETY,
      RateLimiter.DAY, List.dropWhile]
  refine ⟨hrun, ?_⟩
  rw [hrun]
  norm_num [List.filter]

/-- Claim C1 (amended): for every admissible sequence of completed `acquire`
calls (each call enters no earlier than the previous record; limits `N ≥ 1`
per rolling 60-second window and `D ≥ 1` per day), no half-open rolling
60-second window ever contains more than `N` recorded timestamps, and the
daily queue — which the code resets wholesale at rollover instants rather
than sliding — never holds more than `D` timestamps, i.e. at most `D`
requests are recorded per daily epoch.  (A rolling 24-hour window may span
two epochs and hold up to `2·D` records; see the counterexample.) -/
theorem claim_C1_amended (N D : ℕ) (t0 : ℚ) (gaps : List ℚ)
    (hN : 1 ≤ N) (hD : 1 ≤ D) (hg : ∀ g ∈ gaps, 0 ≤ g) :
    (∀ a : ℚ, (((RateLimiter.runGaps N D (RateLimiter.init t0) t0 gaps).2).filter
        (fun x => decide (a ≤ x) && decide (x < a + RateLimiter.WINDOW))).length ≤ N) ∧
    (RateLimiter.runGaps N D (RateLimiter.init t0) t0 gaps).1.daily.length ≤ D ∧
    (∀ gaps1 gaps2, gaps = gaps1 ++ gaps2 →
      (RateLimiter.runGaps N D (RateLimiter.init t0) t0 gaps1).1.daily.length ≤ D) := by
  obtain ⟨tf, hf⟩ := RateLimiter.runGaps_inv hN hD gaps [] (RateLimiter.init t0) t0
    (RateLimiter.init_inv N D t0) hg
  rw [List.nil_append] at hf
  refine ⟨hf.windows, hf.dlen, ?_⟩
  intro gaps1 gaps2 heq
  obtain ⟨tf1, hf1⟩ := RateLimiter.runGaps_inv hN hD gaps1 [] (RateLimiter.init t0) t0
    (RateLimiter.init_inv N D t0)
    (fun g hgm => hg g (heq ▸ List.mem_append_left gaps2 hgm))
  exact hf1.dlen

/-- Witness for C1 (amended) at a concrete run: limits 5 per minute and 50000
per day, two calls 30 seconds apart. -/
theorem claim_C1_amended_witness :
    ((((RateLimiter.runGaps 5 50000 (RateLimiter.init 0) 0 [0, 30]).2).filter
        (fun x => decide ((0 : ℚ) ≤ x) && decide (x < 0 + RateLimiter.WINDOW))).length ≤ 5) ∧
    (RateLimiter.runGaps 5 50000 (RateLimiter.init 0) 0 [0, 30]).1.daily.length ≤ 50000 := by
  have h := claim_C1_amended 5 50000 0 [0, 30] (by norm_num) (by norm_num)
    (by intro g hg; fin_cases hg <;> norm_num)
  exact ⟨h.1 0, h.2.1⟩
